import Mathlib

/-!
Shallow embedding of the canvas-asteroids simulation core: the most advanced
prototype (the third document of src/main.ts) together with the vector math of
src/math.ts and the PRNG helpers of src/utils.ts, and theorems settling the
specification claims C1 through C10.

JavaScript numbers are modelled as real numbers.  The seeded PRNG streams of
the external seedrandom library, the ambient Math.random stream, and the
JavaScript number-to-string conversion are not repository code; they are
modelled as components of an explicit environment Env, and every operation
that consumes randomness threads an explicit stream position.
-/

namespace Asteroids

open scoped Classical

noncomputable section

/-- 2D vector over the reals (class Vector2, src/math.ts). -/
structure Vec2 where
  x : ℝ
  y : ℝ

/-- Vector2.add: componentwise addition. -/
def Vec2.add (a b : Vec2) : Vec2 := ⟨a.x + b.x, a.y + b.y⟩

/-- Vector2.sub: componentwise subtraction. -/
def Vec2.sub (a b : Vec2) : Vec2 := ⟨a.x - b.x, a.y - b.y⟩

/-- Vector2.scale: multiply both components by a scalar. -/
def Vec2.scale (a : Vec2) (value : ℝ) : Vec2 := ⟨a.x * value, a.y * value⟩

/-- Vector2.sqrLength. -/
def Vec2.sqrLength (a : Vec2) : ℝ := a.x * a.x + a.y * a.y

/-- Vector2.length: Euclidean norm. -/
def Vec2.length (a : Vec2) : ℝ := Real.sqrt a.sqrLength

/-- Vector2.setAngle: the vector of the given polar angle and length.  The
source mutates the receiver, ignoring its previous value, so it is embedded
as a constructor; every call site in the simulation passes length 1. -/
def Vec2.setAngle (angle len : ℝ) : Vec2 := ⟨Real.cos angle * len, Real.sin angle * len⟩

/-- Vector2.norm: zero-length-safe normalization. -/
def Vec2.norm (a : Vec2) : Vec2 := if a.length = 0 then a else a.scale (1 / a.length)

/-- Vector2.sqrDistanceTo. -/
def Vec2.sqrDistanceTo (a b : Vec2) : ℝ :=
  (b.x - a.x) * (b.x - a.x) + (b.y - a.y) * (b.y - a.y)

/-- Vector2.distanceTo. -/
def Vec2.distanceTo (a b : Vec2) : ℝ := Real.sqrt (a.sqrDistanceTo b)

/-- The truncation used by the JavaScript % operator: round toward zero. -/
def jsTrunc (x : ℝ) : ℤ := if 0 ≤ x then ⌊x⌋ else ⌈x⌉

/-- The JavaScript remainder operator n % m (sign of the dividend). -/
def jsRem (n m : ℝ) : ℝ := n - m * (jsTrunc (n / m) : ℝ)

/-- mod (src/math.ts line 118): ((n % m) + m) % m. -/
def mod (n m : ℝ) : ℝ := jsRem (jsRem n m + m) m

/-- Vector2.mod: componentwise mod against a bounding size. -/
def Vec2.mod (a that : Vec2) : Vec2 := ⟨Asteroids.mod a.x that.x, Asteroids.mod a.y that.y⟩

/-- Membership of a vector in the half-open box of a bounding size. -/
def Vec2.inBounds (v gs : Vec2) : Prop := 0 ≤ v.x ∧ v.x < gs.x ∧ 0 ≤ v.y ∧ v.y < gs.y

/-- Modelled from the spec: section 2 lists an angle operation among the
Vector2 operations, and Asteroid.split (src/main.ts line 1143) calls
impact.angle(), but the Vector2 class of src/math.ts defines no angle method.
It is modelled as the polar angle of the vector, the convention that inverts
setAngle. -/
def Vec2.angle (v : Vec2) : ℝ := Complex.arg ⟨v.x, v.y⟩

/-- Constants of the most advanced prototype (src/main.ts lines 1025-1040). -/
def PI : ℝ := Real.pi

def TAU : ℝ := PI * 2

def FACTOR : ℝ := 100

def GAME_SIZE : Vec2 := ⟨16 * FACTOR, 9 * FACTOR⟩

def SCALE : ℝ := 64.0

def DRAG : ℝ := 0.015

def TURN_SPEED : ℝ := 0.8

def MOVE_SPEED : ℝ := 5.0

def PROJECTILE_SPEED : ℝ := 0.2

def MAX_PROJECTILES : ℕ := 20

def SHOOTING_RATE : ℝ := 200

def ASTEROID_COUNT : ℕ := 20

/-- The randomness and string conversion the simulation consumes but does not
define: alea is the external seedrandom library (modelled from the spec as a
reproducible stream of floats per seed string, indexed by draw count, with
both the double and the quick draw consuming one stream element), ambient is
the unseeded Math.random stream, and numStr is the JavaScript String()
conversion of a number. -/
structure Env where
  alea : String → ℕ → ℝ
  ambient : ℕ → ℝ
  numStr : ℝ → String

/-- A seeded PRNG handle: its seed string and its position in the stream. -/
structure Rng where
  seed : String
  k : ℕ

/-- Draw one value from a seeded PRNG. -/
def Rng.next (env : Env) (r : Rng) : ℝ × Rng := (env.alea r.seed r.k, ⟨r.seed, r.k + 1⟩)

/-- getRng (src/utils.ts): a fresh stream for the given seed. -/
def getRng (seed : String) : Rng := ⟨seed, 0⟩

/-- prngIntInRange (src/utils.ts): floor(quick() * (atMost - atLeast + 1)) + atLeast. -/
def prngIntInRange (env : Env) (r : Rng) (atLeast atMost : ℤ) : ℤ × Rng :=
  let (q, r1) := r.next env
  (⌊q * ((atMost : ℝ) - (atLeast : ℝ) + 1)⌋ + atLeast, r1)

/-- randomSeed (src/utils.ts line 95): String(Math.random() * Number.MAX_SAFE_INTEGER),
reading the ambient stream at position k. -/
def randomSeed (env : Env) (k : ℕ) : String :=
  env.numStr (env.ambient k * 9007199254740991)

/-- The discriminant of AsteroidSize (src/main.ts lines 1042-1043). -/
inductive AsteroidKind
  | BIG
  | MEDIUM
  | SMALL
deriving DecidableEq

/-- AsteroidSize (src/main.ts lines 1044-1050). -/
structure AsteroidSize where
  kind : AsteroidKind
  value : ℝ
  velocityScale : ℝ
  collisionScale : ℝ
  score : ℝ

/-- AsteroidSize.BIG (src/main.ts lines 1053-1061). -/
def AsteroidSize.BIG : AsteroidSize := ⟨AsteroidKind.BIG, SCALE * 2.5, 0.5, 0.55, 20⟩

/-- AsteroidSize.MEDIUM (src/main.ts lines 1062-1070). -/
def AsteroidSize.MEDIUM : AsteroidSize := ⟨AsteroidKind.MEDIUM, SCALE * 1.5, 0.8, 0.65, 50⟩

/-- AsteroidSize.SMALL (src/main.ts lines 1071-1079). -/
def AsteroidSize.SMALL : AsteroidSize := ⟨AsteroidKind.SMALL, SCALE * 0.8, 1.0, 1.0, 100⟩

/-- Asteroid (src/main.ts lines 1082-1090). -/
structure Asteroid where
  seed : String
  size : AsteroidSize
  pos : Vec2
  vel : Vec2
  rot : ℝ
  shape : List Vec2

/-- Asteroid.isColliding (src/main.ts lines 1124-1129). -/
def Asteroid.isColliding (a : Asteroid) (pos : Vec2) : Prop :=
  a.pos.distanceTo pos < a.size.value * a.size.collisionScale

/-- One vertex of Asteroid.randomShape (src/main.ts lines 1092-1104): three
draws per vertex, for the base radius, the dent test and the angle jitter. -/
def shapeVertex (env : Env) (n : ℕ) (i : ℕ) (r : Rng) : Vec2 × Rng :=
  let (q1, r1) := r.next env
  let radius0 := 0.3 + 0.2 * q1
  let (q2, r2) := r1.next env
  let radius := if q2 < 0.2 then radius0 - 0.15 else radius0
  let (q3, r3) := r2.next env
  let angle := (i : ℝ) * (TAU / (n : ℝ)) + PI * 0.125 * q3
  ((Vec2.setAngle angle 1).scale radius, r3)

/-- The vertices of indices is, in order, threading the PRNG. -/
def shapeVertices (env : Env) (n : ℕ) : List ℕ → Rng → List Vec2 × Rng
  | [], r => ([], r)
  | i :: is, r =>
    let (v, r1) := shapeVertex env n i r
    let (vs, r2) := shapeVertices env n is r1
    (v :: vs, r2)

/-- Asteroid.randomShape (src/main.ts lines 1092-1104). -/
def randomShape (env : Env) (r : Rng) : List Vec2 × Rng :=
  let (nz, r1) := prngIntInRange env r 8 15
  let n := nz.toNat
  shapeVertices env n (List.range n) r1

/-- The size selection inside Asteroid.RANDOM (src/main.ts lines 1108-1113):
BIG if the first draw exceeds 0.3, else MEDIUM if a second draw exceeds 0.6,
else SMALL. -/
def randomSize (env : Env) (r : Rng) : AsteroidSize × Rng :=
  let (q1, r1) := r.next env
  if 0.3 < q1 then (AsteroidSize.BIG, r1)
  else
    let (q2, r2) := r1.next env
    if 0.6 < q2 then (AsteroidSize.MEDIUM, r2) else (AsteroidSize.SMALL, r2)

/-- Asteroid.RANDOM (src/main.ts lines 1106-1122): size, shape, rotation and
spawn position all come from the stream seeded by the given seed string. -/
def Asteroid.RANDOM (env : Env) (seed : String) : Asteroid :=
  let r0 := getRng seed
  let (size, r1) := randomSize env r0
  let (shape, r2) := randomShape env r1
  let (qa, r3) := r2.next env
  let angle := TAU * qa
  let (qx, r4) := r3.next env
  let (qy, _r5) := r4.next env
  { seed := seed
    size := size
    pos := ⟨qx * GAME_SIZE.x, qy * GAME_SIZE.y⟩
    vel := ⟨0, 0⟩
    rot := angle
    shape := shape }

/-- One child of Asteroid.split (src/main.ts lines 1140-1156): a fresh seed is
drawn from the ambient stream at position k; the rotation, speed multiplier and
angle offset are the first three draws of that seed's stream, and the shape is
generated by the Asteroid constructor from a fresh handle on the same seed. -/
def Asteroid.splitChild (env : Env) (a : Asteroid) (impact : Vec2)
    (childSize : AsteroidSize) (k : ℕ) (i : ℕ) : Asteroid :=
  let seed := randomSeed env k
  let impactAngle := impact.angle
  let rot := TAU * env.alea seed 0
  let speedMultiplier := 1.5 * env.alea seed 1 + 0.5
  let angleOffset := PI / 4 * (env.alea seed 2 - 0.5)
  let newVel := (Vec2.setAngle
      (impactAngle + angleOffset + (if i = 0 then PI / 2 else -(PI / 2))) 1).scale
      (a.vel.length * speedMultiplier)
  { seed := seed
    size := childSize
    pos := a.pos
    vel := newVel
    rot := rot
    shape := (randomShape env (getRng seed)).1 }

/-- Asteroid.split (src/main.ts lines 1131-1159) with the spec-modelled
Vec2.angle: null for SMALL, otherwise exactly two children of the next-smaller
tier.  Returns the children and the advanced ambient stream position. -/
def Asteroid.split (env : Env) (a : Asteroid) (impact : Vec2) (k : ℕ) :
    Option (Asteroid × Asteroid) × ℕ :=
  if a.size.kind = AsteroidKind.SMALL then (none, k)
  else
    let childSize :=
      if a.size.kind = AsteroidKind.BIG then AsteroidSize.MEDIUM else AsteroidSize.SMALL
    (some (a.splitChild env impact childSize k 0, a.splitChild env impact childSize (k + 1) 1),
      k + 2)

/-- Asteroid.split exactly as it reads against the src/math.ts snapshot, where
Vector2 defines no angle method: the SMALL guard returns null before any vector
operation, but for BIG and MEDIUM the first loop iteration evaluates
impact.angle(), which is undefined on Vector2, so the call raises a TypeError
instead of producing children. -/
def Asteroid.splitSrc (a : Asteroid) : Except String (Option (List Asteroid)) :=
  if a.size.kind = AsteroidKind.SMALL then Except.ok none
  else Except.error "TypeError: impact.angle is not a function"

/-- Ship (src/main.ts lines 1162-1188). -/
structure Ship where
  pos : Vec2
  vel : Vec2
  rot : ℝ
  shooting : Bool
  movingForward : Bool
  turningLeft : Bool
  turningRight : Bool
  diedAt : ℝ

/-- Ship.dead: the sentinel diedAt = -1 means alive. -/
def Ship.dead (s : Ship) : Prop := s.diedAt ≠ -1

/-- The ship constructed at startup: playfield center, at rest. -/
def Ship.init : Ship :=
  { pos := GAME_SIZE.scale 0.5
    vel := ⟨0, 0⟩
    rot := 0
    shooting := false
    movingForward := false
    turningLeft := false
    turningRight := false
    diedAt := -1 }

/-- Ship.reset (src/main.ts lines 1180-1188): back to center at rest; note the
source clears the movement intents but not the shooting intent. -/
def Ship.reset (s : Ship) : Ship :=
  { s with
    pos := GAME_SIZE.scale 0.5
    vel := ⟨0, 0⟩
    rot := 0
    movingForward := false
    turningLeft := false
    turningRight := false
    diedAt := -1 }

/-- Particle (src/main.ts lines 1191-1216): a tagged union of the line and dot
variants. -/
inductive Particle
  | line (pos vel : Vec2) (ttl rot length : ℝ)
  | dot (pos vel : Vec2) (ttl radius : ℝ)

/-- Position of a particle. -/
def Particle.pos : Particle → Vec2
  | .line p _ _ _ _ => p
  | .dot p _ _ _ => p

/-- Velocity of a particle. -/
def Particle.vel : Particle → Vec2
  | .line _ v _ _ _ => v
  | .dot _ v _ _ => v

/-- Time to live of a particle. -/
def Particle.ttl : Particle → ℝ
  | .line _ _ t _ _ => t
  | .dot _ _ t _ => t

/-- Replace the position of a particle. -/
def Particle.withPos : Particle → Vec2 → Particle
  | .line _ v t r l, p => .line p v t r l
  | .dot _ v t r, p => .dot p v t r

/-- Replace the time to live of a particle. -/
def Particle.withTtl : Particle → ℝ → Particle
  | .line p v _ r l, t => .line p v t r l
  | .dot p v _ r, t => .dot p v t r

/-- Projectile (src/main.ts lines 1218-1224). -/
structure Projectile where
  pos : Vec2
  vel : Vec2
  ttl : ℝ

/-- State (src/main.ts lines 1226-1240).  The collections are JavaScript Sets
iterated in insertion order, embedded as lists; ambPos is the position in the
ambient Math.random stream. -/
structure State where
  seed : String
  rng : Rng
  timestamp : ℝ
  deltaTime : ℝ
  ship : Ship
  asteroids : List Asteroid
  particles : List Particle
  projectiles : List Projectile
  lastShotAt : ℝ
  queue : List Asteroid
  ambPos : ℕ

/-- The loop body of State.initAsteroids (src/main.ts lines 1251-1257): one
ambient draw per asteroid for its seed, everything else from that seed. -/
def initAsteroidsGo (env : Env) : ℕ → ℕ → List Asteroid
  | _, 0 => []
  | k, n + 1 => Asteroid.RANDOM env (randomSeed env k) :: initAsteroidsGo env (k + 1) n

/-- State.initAsteroids (src/main.ts lines 1251-1257): clear and refill. -/
def State.initAsteroids (env : Env) (s : State) (n : ℕ) : State :=
  { s with asteroids := initAsteroidsGo env s.ambPos n, ambPos := s.ambPos + n }

/-- The State constructor (src/main.ts lines 1227-1240). -/
def State.init (env : Env) (seed : String) : State :=
  State.initAsteroids env
    { seed := seed
      rng := getRng seed
      timestamp := 0
      deltaTime := 0
      ship := Ship.init
      asteroids := []
      particles := []
      projectiles := []
      lastShotAt := 0
      queue := []
      ambPos := 0 }
    ASTEROID_COUNT

/-- State.reset (src/main.ts lines 1242-1249): fresh ambient seed, fresh rng,
ship reset, asteroid field regenerated, particles and projectiles cleared.
lastShotAt and the deferred-split queue are not touched. -/
def State.reset (env : Env) (s : State) : State :=
  let newSeed := env.numStr (env.ambient s.ambPos)
  State.initAsteroids env
    { s with
      seed := newSeed
      rng := getRng newSeed
      ship := s.ship.reset
      particles := []
      projectiles := []
      ambPos := s.ambPos + 1 }
    ASTEROID_COUNT

/-- State.shoot (src/main.ts lines 1300-1308).  The direction vector is scaled
in place by SCALE/3 for the spawn offset and the very same vector is then
scaled again by PROJECTILE_SPEED to become the velocity, so the spawned
velocity is direction * (SCALE/3) * PROJECTILE_SPEED. -/
def State.shoot (s : State) : State :=
  if MAX_PROJECTILES ≤ s.projectiles.length then s
  else
    let direction := Vec2.setAngle (s.ship.rot - PI * 0.5) 1
    let d1 := direction.scale (SCALE / 3.0)
    let pos := s.ship.pos.add d1
    let vel := d1.scale PROJECTILE_SPEED
    { s with lastShotAt := s.timestamp, projectiles := s.projectiles ++ [⟨pos, vel, 3.0⟩] }

/-- The turning lines of State.updateShip (src/main.ts lines 1282-1287): both
intents may apply in the same tick. -/
def shipTurn (deltaTime : ℝ) (sh : Ship) : ℝ :=
  let rot1 := if sh.turningLeft then sh.rot - deltaTime * PI * 2 * TURN_SPEED else sh.rot
  if sh.turningRight then rot1 + deltaTime * PI * 2 * TURN_SPEED else rot1

/-- The thrust line of State.updateShip (src/main.ts lines 1288-1290): the
direction is the unit vector of the heading before turning is applied. -/
def shipThrust (deltaTime : ℝ) (sh : Ship) : Vec2 :=
  if sh.movingForward then
    sh.vel.add ((Vec2.setAngle (sh.rot - PI * 0.5) 1).scale (MOVE_SPEED * deltaTime))
  else sh.vel

/-- State.updateShip (src/main.ts lines 1270-1298).  When dead: clamp-decay
every particle and possibly perform the full reset.  When alive: turning,
thrust (whose direction is computed from the rotation before turning), the
rate-limited shot, drag and the wrapped position integration, in source
order. -/
def State.updateShip (env : Env) (timestamp deltaTime : ℝ) (s : State) : State :=
  if s.ship.dead then
    let s1 := { s with particles := s.particles.map (fun p => p.withTtl (max 0 (p.ttl - deltaTime))) }
    if 3.0 * 1000 < timestamp - s.ship.diedAt then s1.reset env else s1
  else
    let s1 := { s with ship :=
      { s.ship with rot := shipTurn deltaTime s.ship, vel := shipThrust deltaTime s.ship } }
    let s2 := if s1.ship.shooting ∧ SHOOTING_RATE ≤ s1.timestamp - s1.lastShotAt then s1.shoot else s1
    let vel2 := s2.ship.vel.scale (1 - DRAG)
    { s2 with ship := { s2.ship with vel := vel2, pos := (s2.ship.pos.add vel2).mod GAME_SIZE } }

/-- State.updateParticle (src/main.ts lines 1343-1351): integrate, wrap, decay;
none when the particle is removed. -/
def updateParticle (deltaTime : ℝ) (p : Particle) : Option Particle :=
  let pos1 := (p.pos.add p.vel).mod GAME_SIZE
  if deltaTime < p.ttl then some ((p.withPos pos1).withTtl (p.ttl - deltaTime)) else none

/-- The particle pass of State.update. -/
def updateParticles (deltaTime : ℝ) (ps : List Particle) : List Particle :=
  ps.filterMap (updateParticle deltaTime)

/-- Accumulator of the asteroid pass: processed asteroids, the ship, the
particle collection and the seeded rng handle. -/
structure AstAcc where
  asts : List Asteroid
  ship : Ship
  particles : List Particle
  rng : Rng

/-- One particle of the death burst (src/main.ts lines 1323-1339): seven quick
draws, in source order, from the state rng. -/
def burstParticle (env : Env) (shipPos : Vec2) (i : ℕ) (r : Rng) : Particle × Rng :=
  let (qa, r1) := r.next env
  let angle := TAU * qa
  let (qx, r2) := r1.next env
  let (qy, r3) := r2.next env
  let pos := shipPos.add ⟨qx * 3, qy * 3⟩
  let (qv, r4) := r3.next env
  let vel := (Vec2.setAngle angle 1).scale (0.3 * qv)
  let (qt, r5) := r4.next env
  let ttl := 1.0 + (i : ℝ) + qt
  let (qr, r6) := r5.next env
  let rot := TAU * qr
  let (ql, r7) := r6.next env
  let len := SCALE * (0.6 + 0.4 * ql)
  (Particle.line pos vel ttl rot len, r7)

/-- The four line particles spawned by checkAsteroidCollision on ship death. -/
def deathBurst (env : Env) (shipPos : Vec2) (r : Rng) : List Particle × Rng :=
  let (p0, r1) := burstParticle env shipPos 0 r
  let (p1, r2) := burstParticle env shipPos 1 r1
  let (p2, r3) := burstParticle env shipPos 2 r2
  let (p3, r4) := burstParticle env shipPos 3 r3
  ([p0, p1, p2, p3], r4)

/-- State.updateAsteroid and State.checkAsteroidCollision (src/main.ts lines
1310-1341): per-tier thrust along the asteroid axis, drag, wrapped integration,
then the ship collision test; on a hit the death burst is appended to the
particle collection, unwrapped. -/
def updateAsteroidStep (env : Env) (timestamp deltaTime : ℝ) (acc : AstAcc) (a : Asteroid) :
    AstAcc :=
  let direction := Vec2.setAngle (a.rot - PI * 0.5) 1
  let vel1 := (a.vel.add (direction.scale (a.size.velocityScale * deltaTime))).scale (1 - DRAG)
  let pos1 := (a.pos.add vel1).mod GAME_SIZE
  let a1 : Asteroid := { a with vel := vel1, pos := pos1 }
  if ¬ acc.ship.dead ∧ a1.isColliding acc.ship.pos then
    let (ps, r1) := deathBurst env acc.ship.pos acc.rng
    { asts := acc.asts ++ [a1]
      ship := { acc.ship with diedAt := timestamp }
      particles := acc.particles ++ ps
      rng := r1 }
  else
    { acc with asts := acc.asts ++ [a1] }

/-- The asteroid pass of State.update, in insertion order. -/
def updateAsteroids (env : Env) (timestamp deltaTime : ℝ) :
    List Asteroid → AstAcc → AstAcc
  | [], acc => acc
  | a :: rest, acc =>
    updateAsteroids env timestamp deltaTime rest (updateAsteroidStep env timestamp deltaTime acc a)

/-- Accumulator of the per-projectile asteroid scan: the projectile position
(mutated in place by norm on a hit), whether the projectile is still in the
collection, the surviving asteroids, the deferred-split queue and the ambient
stream position. -/
structure PathAcc where
  pos : Vec2
  alive : Bool
  kept : List Asteroid
  queue : List Asteroid
  ambPos : ℕ

/-- One iteration of State.projectilePath (src/main.ts lines 1364-1375): on a
hit the projectile position is normalized in place, the asteroid is split
against it, the projectile and the asteroid are removed, and any children are
queued; the scan then continues with the remaining asteroids. -/
def projectilePathStep (env : Env) (acc : PathAcc) (a : Asteroid) : PathAcc :=
  if a.isColliding acc.pos then
    let npos := acc.pos.norm
    let (children, amb1) := Asteroid.split env a npos acc.ambPos
    { pos := npos
      alive := false
      kept := acc.kept
      queue := acc.queue ++ (match children with | none => [] | some (c, d) => [c, d])
      ambPos := amb1 }
  else
    { acc with kept := acc.kept ++ [a] }

/-- State.projectilePath (src/main.ts lines 1364-1375). -/
def projectilePath (env : Env) (asteroids : List Asteroid) (p : Projectile)
    (queue : List Asteroid) (ambPos : ℕ) : PathAcc :=
  asteroids.foldl (projectilePathStep env) ⟨p.pos, true, [], queue, ambPos⟩

/-- State.updateProjectile (src/main.ts lines 1353-1362): the scan, then the
wrapped integration and the TTL decay; the projectile survives only if the scan
left it alive and its TTL exceeds deltaTime. -/
def updateProjectile (env : Env) (deltaTime : ℝ) (asteroids queue : List Asteroid)
    (ambPos : ℕ) (p : Projectile) : Option Projectile × List Asteroid × List Asteroid × ℕ :=
  let acc := projectilePath env asteroids p queue ambPos
  let pos1 := (acc.pos.add p.vel).mod GAME_SIZE
  if acc.alive = true ∧ deltaTime < p.ttl then
    (some ⟨pos1, p.vel, p.ttl - deltaTime⟩, acc.kept, acc.queue, acc.ambPos)
  else
    (none, acc.kept, acc.queue, acc.ambPos)

/-- The projectile pass of State.update, threading the asteroid collection, the
queue and the ambient position through the projectiles in insertion order. -/
def updateProjectiles (env : Env) (deltaTime : ℝ) :
    List Projectile → List Asteroid → List Asteroid → ℕ →
    List Projectile × List Asteroid × List Asteroid × ℕ
  | [], asteroids, queue, ambPos => ([], asteroids, queue, ambPos)
  | p :: rest, asteroids, queue, ambPos =>
    let (p1, asts1, q1, amb1) := updateProjectile env deltaTime asteroids queue ambPos p
    let (ps, asts2, q2, amb2) := updateProjectiles env deltaTime rest asts1 q1 amb1
    (p1.toList ++ ps, asts2, q2, amb2)

/-- The first two lines of State.update followed by this.updateShip. -/
def State.stageShip (env : Env) (timestamp deltaTime : ℝ) (s : State) : State :=
  State.updateShip env timestamp deltaTime
    { s with timestamp := timestamp, deltaTime := deltaTime }

/-- The particle pass of State.update. -/
def State.stageParticles (deltaTime : ℝ) (s : State) : State :=
  { s with particles := updateParticles deltaTime s.particles }

/-- The asteroid pass of State.update. -/
def State.stageAsteroids (env : Env) (timestamp deltaTime : ℝ) (s : State) : State :=
  let acc := updateAsteroids env timestamp deltaTime s.asteroids ⟨[], s.ship, s.particles, s.rng⟩
  { s with
    asteroids := acc.asts
    ship := acc.ship
    particles := acc.particles
    rng := acc.rng }

/-- The projectile pass of State.update. -/
def State.stageProjectiles (env : Env) (deltaTime : ℝ) (s : State) : State :=
  let r := updateProjectiles env deltaTime s.projectiles s.asteroids s.queue s.ambPos
  { s with
    projectiles := r.1
    asteroids := r.2.1
    queue := r.2.2.1
    ambPos := r.2.2.2 }

/-- The deferred merge at the end of State.update: every queued asteroid joins
the live collection and the queue is cleared. -/
def State.mergeQueue (s : State) : State :=
  { s with asteroids := s.asteroids ++ s.queue, queue := [] }

/-- State.update (src/main.ts lines 1259-1268): record timestamp and deltaTime,
update the ship, the particle pass, the asteroid pass, the projectile pass,
then merge the deferred-split queue into the live collection and clear it. -/
def State.update (env : Env) (s : State) (timestamp deltaTime : ℝ) : State :=
  State.mergeQueue
    (State.stageProjectiles env deltaTime
      (State.stageAsteroids env timestamp deltaTime
        (State.stageParticles deltaTime
          (State.stageShip env timestamp deltaTime s))))

/-- A concrete environment for evaluation: every seeded draw and every
ambient draw is 1/2, and the String() conversion is constant. -/
def envHalf : Env := ⟨fun _ _ => 1 / 2, fun _ => 1 / 2, fun _ => "r"⟩

/-- Environment whose ambient Math.random stream is constantly 0; the String()
conversion distinguishes 0 from every other number, as the real conversion
does. -/
def envAmbZero : Env := ⟨fun _ _ => 0, fun _ => 0, fun x => if x = 0 then "zero" else "nonzero"⟩

/-- The same environment as envAmbZero except that the ambient Math.random
stream is constantly 1/2. -/
def envAmbHalf : Env := ⟨fun _ _ => 0, fun _ => 1 / 2, fun x => if x = 0 then "zero" else "nonzero"⟩

/-- A BIG asteroid sitting at the origin at rest. -/
def c1Asteroid : Asteroid := ⟨"s", AsteroidSize.BIG, ⟨0, 0⟩, ⟨0, 0⟩, 0, []⟩

/-- A ship at rest with no intents set. -/
def idleShip (p : Vec2) (diedAt : ℝ) : Ship := ⟨p, ⟨0, 0⟩, 0, false, false, false, false, diedAt⟩

/-- A live ship at rest holding only the shooting intent. -/
def shootingShip (p : Vec2) : Ship := ⟨p, ⟨0, 0⟩, 0, true, false, false, false, -1⟩

/-- A state with the given ship and no other entities. -/
def baseState (sh : Ship) : State := ⟨"s", ⟨"s", 0⟩, 0, 0, sh, [], [], [], 0, [], 0⟩

/-- State for the C6 counterexample: a live shooting ship at the center. -/
def s6 : State := baseState (shootingShip ⟨800, 450⟩)

/-- State for the C7 counterexample: a dead ship and one line particle. -/
def s7 : State :=
  { baseState (idleShip ⟨800, 450⟩ 0) with particles := [Particle.line ⟨10, 10⟩ ⟨1, 0⟩ 5 0 1] }

/-- State for the C8 counterexample: a dead ship away from the center. -/
def s8 : State := baseState (idleShip ⟨10, 20⟩ 0)

/-- A SMALL asteroid at rest at the origin. -/
def smallA : Asteroid := ⟨"a", AsteroidSize.SMALL, ⟨0, 0⟩, ⟨0, 0⟩, 0, []⟩

/-- A SMALL asteroid at rest at (10, 0). -/
def smallB : Asteroid := ⟨"b", AsteroidSize.SMALL, ⟨10, 0⟩, ⟨0, 0⟩, 0, []⟩

/-- State for the C5 counterexample: two SMALL asteroids overlapping one
projectile at (3, 4), with the ship far away at the center. -/
def s5 : State :=
  { baseState (idleShip ⟨800, 450⟩ (-1)) with
    asteroids := [smallA, smallB]
    projectiles := [⟨⟨3, 4⟩, ⟨0, 0⟩, 3⟩] }

/-- A SMALL asteroid at rest near the right edge, on top of the ship. -/
def smallC : Asteroid := ⟨"c", AsteroidSize.SMALL, ⟨1599, 450⟩, ⟨0, 0⟩, 0, []⟩

/-- State for the C3 counterexample: a live ship near the right edge colliding
with a SMALL asteroid, so the death burst spawns unwrapped particles. -/
def s3c : State :=
  { baseState (idleShip ⟨1599, 450⟩ (-1)) with asteroids := [smallC] }

/-- State for the C3 witness: a live idle ship at the center with no other
entities. -/
def sW : State := baseState (idleShip ⟨800, 450⟩ (-1))

/-- The property claim C4 asserts of splitting, over the spec-modelled
Vec2.angle: SMALL splits to null; BIG and MEDIUM split to exactly two children
of the next-smaller tier, spawned at the parent position, each with velocity
pointing at the impact angle plus a jitter of magnitude at most pi/8 plus or
minus pi/2, and with speed equal to the parent speed times a multiplier in
[1/2, 2]; and a projectile colliding with the asteroid is consumed by the scan
while the asteroid leaves the surviving collection. -/
def SplitSpec (env : Env) (a : Asteroid) (impact : Vec2) (k : ℕ) : Prop :=
  (a.size.kind = AsteroidKind.SMALL → (Asteroid.split env a impact k).1 = none) ∧
  (a.size.kind ≠ AsteroidKind.SMALL →
    ∃ c0 c1, (Asteroid.split env a impact k).1 = some (c0, c1) ∧
      (a.size.kind = AsteroidKind.BIG →
        c0.size = AsteroidSize.MEDIUM ∧ c1.size = AsteroidSize.MEDIUM) ∧
      (a.size.kind = AsteroidKind.MEDIUM →
        c0.size = AsteroidSize.SMALL ∧ c1.size = AsteroidSize.SMALL) ∧
      c0.pos = a.pos ∧ c1.pos = a.pos ∧
      (∃ m0 j0, 1 / 2 ≤ m0 ∧ m0 ≤ 2 ∧ |j0| ≤ PI / 8 ∧
        c0.vel = (Vec2.setAngle (impact.angle + j0 + PI / 2) 1).scale (a.vel.length * m0) ∧
        c0.vel.length = a.vel.length * m0) ∧
      (∃ m1 j1, 1 / 2 ≤ m1 ∧ m1 ≤ 2 ∧ |j1| ≤ PI / 8 ∧
        c1.vel = (Vec2.setAngle (impact.angle + j1 + -(PI / 2)) 1).scale (a.vel.length * m1) ∧
        c1.vel.length = a.vel.length * m1)) ∧
  (∀ (p : Projectile) (q : List Asteroid) (k2 : ℕ), a.isColliding p.pos →
    (projectilePath env [a] p q k2).alive = false ∧ (projectilePath env [a] p q k2).kept = [])

attribute [ext] Vec2

theorem jsRem_bounds_pos {n m : ℝ} (hm : 0 < m) (h : 0 ≤ n / m) :
    0 ≤ jsRem n m ∧ jsRem n m < m := by
  have hm' : m ≠ 0 := ne_of_gt hm
  have hfe : jsRem n m = m * Int.fract (n / m) := by
    rw [jsRem, jsTrunc, if_pos h, Int.fract, mul_sub, mul_div_cancel₀ _ hm']
  refine ⟨?_, ?_⟩
  · rw [hfe]; exact mul_nonneg hm.le (Int.fract_nonneg _)
  · rw [hfe]
    have := mul_lt_mul_of_pos_left (Int.fract_lt_one (n / m)) hm
    simpa using this

theorem jsRem_bounds_neg {n m : ℝ} (hm : 0 < m) (h : n / m < 0) :
    -m < jsRem n m ∧ jsRem n m ≤ 0 := by
  have hm' : m ≠ 0 := ne_of_gt hm
  have hfe : jsRem n m = m * (n / m - (⌈n / m⌉ : ℝ)) := by
    rw [jsRem, jsTrunc, if_neg (not_le.mpr h), mul_sub, mul_div_cancel₀ _ hm']
  constructor
  · rw [hfe]
    have h1 : (-1 : ℝ) < n / m - (⌈n / m⌉ : ℝ) := by
      have := Int.ceil_lt_add_one (n / m)
      linarith
    nlinarith
  · rw [hfe]
    have h2 : n / m - (⌈n / m⌉ : ℝ) ≤ 0 := by
      have := Int.le_ceil (n / m)
      linarith
    nlinarith

theorem mod_bounds (n : ℝ) {m : ℝ} (hm : 0 < m) : 0 ≤ mod n m ∧ mod n m < m := by
  have hpos : 0 < jsRem n m + m := by
    rcases le_or_lt 0 (n / m) with h | h
    · have := (jsRem_bounds_pos hm h).1; linarith
    · have := (jsRem_bounds_neg hm h).1; linarith
  have hq : 0 ≤ (jsRem n m + m) / m := div_nonneg hpos.le hm.le
  exact jsRem_bounds_pos hm hq

theorem mod_sub_int (n m : ℝ) : ∃ k : ℤ, mod n m = n - k * m := by
  refine ⟨jsTrunc (n / m) + jsTrunc ((jsRem n m + m) / m) - 1, ?_⟩
  simp only [mod, jsRem]
  push_cast
  ring

theorem mod_eq_self {n m : ℝ} (h0 : 0 ≤ n) (h1 : n < m) : mod n m = n := by
  have hm : 0 < m := lt_of_le_of_lt h0 h1
  obtain ⟨k, hk⟩ := mod_sub_int n m
  obtain ⟨hb0, hb1⟩ := mod_bounds n hm
  have hkm : (k : ℝ) * m = n - mod n m := by linarith
  have hlt : (k : ℝ) * m < m := by rw [hkm]; linarith
  have hgt : -m < (k : ℝ) * m := by rw [hkm]; linarith
  have hk1 : (k : ℝ) < 1 := by
    by_contra hc
    push_neg at hc
    nlinarith
  have hk2 : (-1 : ℝ) < (k : ℝ) := by
    by_contra hc
    push_neg at hc
    nlinarith
  have hk0 : k = 0 := by
    have l1 : k < 1 := by exact_mod_cast hk1
    have l2 : (-1 : ℤ) < k := by exact_mod_cast hk2
    omega
  rw [hk0] at hk
  simpa using hk

theorem Vec2.mod_inBounds (v gs : Vec2) (hx : 0 < gs.x) (hy : 0 < gs.y) :
    (v.mod gs).inBounds gs := by
  obtain ⟨a1, a2⟩ := mod_bounds v.x hx
  obtain ⟨b1, b2⟩ := mod_bounds v.y hy
  exact ⟨by simpa [Vec2.mod] using a1, by simpa [Vec2.mod] using a2,
    by simpa [Vec2.mod] using b1, by simpa [Vec2.mod] using b2⟩

/-- Claim C10: for every real n and every m > 0, mod(n, m) = ((n % m) + m) % m
returns a value in [0, m) congruent to n modulo m; consequently Vector2.mod
wraps any coordinates into the half-open bounding box, which the single
language-level remainder does not (for example (-3) % 5 = -3, outside [0, 5)). -/
theorem claim_C10 (n m : ℝ) (hm : 0 < m) :
    (0 ≤ Asteroids.mod n m ∧ Asteroids.mod n m < m ∧
      ∃ k : ℤ, Asteroids.mod n m = n - k * m) ∧
    (∀ v gs : Vec2, 0 < gs.x → 0 < gs.y → (v.mod gs).inBounds gs) ∧
    (jsRem (-3) 5 = -3 ∧ ¬ (0 ≤ (-3 : ℝ) ∧ (-3 : ℝ) < 5)) := by
  obtain ⟨h0, h1⟩ := mod_bounds n hm
  refine ⟨⟨h0, h1, mod_sub_int n m⟩, Vec2.mod_inBounds, ?_, by norm_num⟩
  have hc : jsTrunc ((-3 : ℝ) / 5) = 0 := by
    rw [jsTrunc, if_neg (by norm_num)]
    rw [Int.ceil_eq_zero_iff]
    constructor <;> norm_num
  rw [jsRem, hc]
  norm_num

/-- Witness for C10 at n = -3, m = 5. -/
theorem claim_C10_witness :
    (0 : ℝ) < 5 ∧
    ((0 ≤ Asteroids.mod (-3) 5 ∧ Asteroids.mod (-3) 5 < 5 ∧
        ∃ k : ℤ, Asteroids.mod (-3) 5 = -3 - k * 5) ∧
      (∀ v gs : Vec2, 0 < gs.x → 0 < gs.y → (v.mod gs).inBounds gs) ∧
      (jsRem (-3) 5 = -3 ∧ ¬ (0 ≤ (-3 : ℝ) ∧ (-3 : ℝ) < 5))) :=
  ⟨by norm_num, claim_C10 (-3) 5 (by norm_num)⟩

theorem Asteroid.RANDOM_seed (env : Env) (s : String) : (Asteroid.RANDOM env s).seed = s := rfl

theorem initAsteroidsGo_twenty (env : Env) (k : ℕ) :
    initAsteroidsGo env k 20 =
      Asteroid.RANDOM env (randomSeed env k) :: initAsteroidsGo env (k + 1) 19 := rfl

/-- Claim C1: the spec declares every simulation operation total, but against
the src/math.ts Vector2, which has no angle method, Asteroid.split of a BIG or
MEDIUM asteroid evaluates impact.angle() and raises a TypeError; the SMALL
guard path is the only one that completes.  The code is evaluated at a failing
input, a BIG asteroid about to be split. -/
theorem claim_C1 :
    c1Asteroid.size.kind = AsteroidKind.BIG ∧
    c1Asteroid.splitSrc = Except.error "TypeError: impact.angle is not a function" ∧
    Asteroid.splitSrc { c1Asteroid with size := AsteroidSize.SMALL } = Except.ok none :=
  ⟨rfl, rfl, rfl⟩

/-- Claim C2: determinism from the seed alone fails; the asteroid field of a
fresh State is drawn from the ambient Math.random stream (randomSeed inside
initAsteroids), so two runs with the identical seed string but different
ambient streams already disagree on the first asteroid before any advance
call. -/
theorem claim_C2 :
    (State.init envAmbZero "test").asteroids.head?.map Asteroid.seed = some "zero" ∧
    (State.init envAmbHalf "test").asteroids.head?.map Asteroid.seed = some "nonzero" ∧
    State.init envAmbZero "test" ≠ State.init envAmbHalf "test" := by
  have hz : randomSeed envAmbZero 0 = "zero" := by
    simp only [randomSeed, envAmbZero]
    rw [if_pos (by norm_num)]
  have hh : randomSeed envAmbHalf 0 = "nonzero" := by
    simp only [randomSeed, envAmbHalf]
    rw [if_neg (by norm_num)]
  have h1 : (State.init envAmbZero "test").asteroids.head?.map Asteroid.seed = some "zero" := by
    simp only [State.init, State.initAsteroids, ASTEROID_COUNT]
    rw [initAsteroidsGo_twenty]
    simp [Asteroid.RANDOM_seed, hz]
  have h2 : (State.init envAmbHalf "test").asteroids.head?.map Asteroid.seed = some "nonzero" := by
    simp only [State.init, State.initAsteroids, ASTEROID_COUNT]
    rw [initAsteroidsGo_twenty]
    simp [Asteroid.RANDOM_seed, hh]
  refine ⟨h1, h2, fun h => ?_⟩
  have hc := congrArg (fun st : State => st.asteroids.head?.map Asteroid.seed) h
  simp only at hc
  rw [h1, h2] at hc
  exact absurd hc (by decide)

theorem GAME_SIZE_x : GAME_SIZE.x = 1600 := by norm_num [GAME_SIZE, FACTOR]

theorem GAME_SIZE_y : GAME_SIZE.y = 900 := by norm_num [GAME_SIZE, FACTOR]

theorem mod_GS (v : Vec2) : (v.mod GAME_SIZE).inBounds GAME_SIZE :=
  Vec2.mod_inBounds v GAME_SIZE (by rw [GAME_SIZE_x]; norm_num) (by rw [GAME_SIZE_y]; norm_num)

theorem center_inBounds : (GAME_SIZE.scale 0.5).inBounds GAME_SIZE := by
  simp only [Vec2.scale, Vec2.inBounds, GAME_SIZE, FACTOR]
  norm_num

@[simp] theorem Particle.withPos_pos (p : Particle) (v : Vec2) : (p.withPos v).pos = v := by
  cases p <;> rfl

@[simp] theorem Particle.withPos_vel (p : Particle) (v : Vec2) : (p.withPos v).vel = p.vel := by
  cases p <;> rfl

@[simp] theorem Particle.withPos_ttl (p : Particle) (v : Vec2) : (p.withPos v).ttl = p.ttl := by
  cases p <;> rfl

@[simp] theorem Particle.withTtl_ttl (p : Particle) (t : ℝ) : (p.withTtl t).ttl = t := by
  cases p <;> rfl

@[simp] theorem Particle.withTtl_pos (p : Particle) (t : ℝ) : (p.withTtl t).pos = p.pos := by
  cases p <;> rfl

@[simp] theorem Particle.withTtl_vel (p : Particle) (t : ℝ) : (p.withTtl t).vel = p.vel := by
  cases p <;> rfl

theorem Vec2.scale_scale (v : Vec2) (a b : ℝ) : (v.scale a).scale b = v.scale (a * b) := by
  simp only [Vec2.scale]
  ext <;> ring

theorem setAngle_scale_length (θ s : ℝ) : ((Vec2.setAngle θ 1).scale s).length = |s| := by
  have h : ((Vec2.setAngle θ 1).scale s).sqrLength = s ^ 2 := by
    simp only [Vec2.setAngle, Vec2.scale, Vec2.sqrLength]
    calc Real.cos θ * 1 * s * (Real.cos θ * 1 * s) + Real.sin θ * 1 * s * (Real.sin θ * 1 * s)
        = (Real.sin θ ^ 2 + Real.cos θ ^ 2) * s ^ 2 := by ring
    _ = s ^ 2 := by rw [Real.sin_sq_add_cos_sq]; ring
  rw [Vec2.length, h, Real.sqrt_sq_eq_abs]

theorem mem_updateParticles {deltaTime : ℝ} {ps : List Particle} :
    ∀ q ∈ updateParticles deltaTime ps, ∃ p ∈ ps,
      q.ttl = p.ttl - deltaTime ∧ q.pos = (p.pos.add p.vel).mod GAME_SIZE ∧ q.vel = p.vel := by
  intro q hq
  rw [updateParticles, List.mem_filterMap] at hq
  obtain ⟨p, hp, he⟩ := hq
  rw [updateParticle] at he
  split at he
  · obtain rfl := Option.some_inj.mp he
    exact ⟨p, hp, by simp, by simp, by simp⟩
  · exact absurd he (by simp)

theorem updateParticles_inBounds {deltaTime : ℝ} {ps : List Particle} :
    ∀ q ∈ updateParticles deltaTime ps, q.pos.inBounds GAME_SIZE := by
  intro q hq
  obtain ⟨p, _, _, hpos, _⟩ := mem_updateParticles q hq
  rw [hpos]
  exact mod_GS _

theorem updateAsteroidStep_cases (env : Env) (t dt : ℝ) (acc : AstAcc) (a : Asteroid) :
    ∃ a1 : Asteroid, a1.pos.inBounds GAME_SIZE ∧
      (updateAsteroidStep env t dt acc a = ⟨acc.asts ++ [a1], acc.ship, acc.particles, acc.rng⟩ ∨
        (¬ acc.ship.dead ∧ ∃ ps r1, updateAsteroidStep env t dt acc a =
          ⟨acc.asts ++ [a1], { acc.ship with diedAt := t }, acc.particles ++ ps, r1⟩)) := by
  simp only [updateAsteroidStep]
  split
  case isTrue h =>
    exact ⟨_, mod_GS _, Or.inr ⟨h.1, _, _, rfl⟩⟩
  case isFalse h =>
    exact ⟨_, mod_GS _, Or.inl rfl⟩

theorem updateAsteroids_ship_pos (env : Env) (t dt : ℝ) (l : List Asteroid) (acc : AstAcc) :
    (updateAsteroids env t dt l acc).ship.pos = acc.ship.pos := by
  induction l generalizing acc with
  | nil => rfl
  | cons a rest ih =>
    rw [updateAsteroids]
    rw [ih]
    obtain ⟨a1, _, h | ⟨_, ps, r1, h⟩⟩ := updateAsteroidStep_cases env t dt acc a <;> rw [h]

theorem updateAsteroids_dead (env : Env) (t dt : ℝ) (l : List Asteroid) (acc : AstAcc)
    (hd : acc.ship.dead) :
    (updateAsteroids env t dt l acc).ship = acc.ship ∧
    (updateAsteroids env t dt l acc).particles = acc.particles ∧
    (updateAsteroids env t dt l acc).rng = acc.rng := by
  induction l generalizing acc with
  | nil => exact ⟨rfl, rfl, rfl⟩
  | cons a rest ih =>
    rw [updateAsteroids]
    obtain ⟨a1, _, h | ⟨hnd, ps, r1, h⟩⟩ := updateAsteroidStep_cases env t dt acc a
    · rw [h]
      exact ih ⟨acc.asts ++ [a1], acc.ship, acc.particles, acc.rng⟩ hd
    · exact absurd hd hnd

theorem updateAsteroids_diedAt_eq (env : Env) (t dt : ℝ) (l : List Asteroid) (acc : AstAcc)
    (h0 : acc.ship.diedAt = t) :
    (updateAsteroids env t dt l acc).ship.diedAt = t := by
  induction l generalizing acc with
  | nil => exact h0
  | cons a rest ih =>
    rw [updateAsteroids]
    obtain ⟨a1, _, h | ⟨_, ps, r1, h⟩⟩ := updateAsteroidStep_cases env t dt acc a <;> rw [h]
    · exact ih _ h0
    · exact ih _ rfl

theorem updateAsteroids_asts (env : Env) (t dt : ℝ) (l : List Asteroid) (acc : AstAcc) :
    ∀ x ∈ (updateAsteroids env t dt l acc).asts, x ∈ acc.asts ∨ x.pos.inBounds GAME_SIZE := by
  induction l generalizing acc with
  | nil => exact fun x hx => Or.inl hx
  | cons a rest ih =>
    rw [updateAsteroids]
    intro x hx
    obtain ⟨a1, hb, h | ⟨_, ps, r1, h⟩⟩ := updateAsteroidStep_cases env t dt acc a <;> rw [h] at hx
    · rcases ih _ x hx with hm | hm
      · rcases List.mem_append.mp hm with hm1 | hm1
        · exact Or.inl hm1
        · rw [List.mem_singleton.mp hm1]
          exact Or.inr hb
      · exact Or.inr hm
    · rcases ih _ x hx with hm | hm
      · rcases List.mem_append.mp hm with hm1 | hm1
        · exact Or.inl hm1
        · rw [List.mem_singleton.mp hm1]
          exact Or.inr hb
      · exact Or.inr hm

theorem updateAsteroids_particles (env : Env) (t dt : ℝ) (l : List Asteroid) (acc : AstAcc) :
    ∃ ex, (updateAsteroids env t dt l acc).particles = acc.particles ++ ex ∧
      (ex = [] ∨ (updateAsteroids env t dt l acc).ship.diedAt = t) := by
  induction l generalizing acc with
  | nil => exact ⟨[], by simp [updateAsteroids], Or.inl rfl⟩
  | cons a rest ih =>
    rw [updateAsteroids]
    obtain ⟨a1, _, h | ⟨_, ps, r1, h⟩⟩ := updateAsteroidStep_cases env t dt acc a <;> rw [h]
    · exact ih _
    · obtain ⟨ex, he, _⟩ := ih ⟨acc.asts ++ [a1], { acc.ship with diedAt := t },
        acc.particles ++ ps, r1⟩
      refine ⟨ps ++ ex, ?_, Or.inr (updateAsteroids_diedAt_eq env t dt rest _ rfl)⟩
      rw [he, List.append_assoc]

theorem splitChild_pos (env : Env) (a : Asteroid) (impact : Vec2) (cs : AsteroidSize)
    (k i : ℕ) : (Asteroid.splitChild env a impact cs k i).pos = a.pos := rfl

theorem split_children_pos (env : Env) (a : Asteroid) (impact : Vec2) (k : ℕ) :
    ∀ c d, (Asteroid.split env a impact k).1 = some (c, d) → c.pos = a.pos ∧ d.pos = a.pos := by
  intro c d h
  rw [Asteroid.split] at h
  split at h
  · simp at h
  · simp only at h
    obtain ⟨h1, h2⟩ := Prod.mk.injEq .. ▸ Option.some_inj.mp h
    exact ⟨h1 ▸ rfl, h2 ▸ rfl⟩

theorem projectilePathStep_cases (env : Env) (acc : PathAcc) (a : Asteroid) :
    (projectilePathStep env acc a = { acc with kept := acc.kept ++ [a] }) ∨
    (∃ ch amb1, (∀ c ∈ ch, c.pos = a.pos) ∧
      projectilePathStep env acc a =
        ⟨acc.pos.norm, false, acc.kept, acc.queue ++ ch, amb1⟩) := by
  simp only [projectilePathStep]
  split
  · right
    refine ⟨_, _, ?_, rfl⟩
    intro c hc
    rcases hs : (Asteroid.split env a acc.pos.norm acc.ambPos).1 with _ | ⟨c0, c1⟩
    · rw [hs] at hc
      simp at hc
    · rw [hs] at hc
      obtain ⟨h0, h1⟩ := split_children_pos env a acc.pos.norm acc.ambPos c0 c1 hs
      rcases List.mem_pair.mp hc with rfl | rfl
      · exact h0
      · exact h1
  · left
    rfl

theorem pathFold_kept (env : Env) (l : List Asteroid) (acc : PathAcc) :
    ∃ r, (l.foldl (projectilePathStep env) acc).kept = acc.kept ++ r ∧ ∀ x ∈ r, x ∈ l := by
  induction l generalizing acc with
  | nil => exact ⟨[], by simp, by simp⟩
  | cons a rest ih =>
    rw [List.foldl_cons]
    rcases projectilePathStep_cases env acc a with h | ⟨ch, amb1, _, h⟩ <;> rw [h]
    · obtain ⟨r, hr, hm⟩ := ih { acc with kept := acc.kept ++ [a] }
      refine ⟨a :: r, ?_, ?_⟩
      · rw [hr]
        simp
      · intro x hx
        rcases List.mem_cons.mp hx with rfl | hx
        · exact List.mem_cons_self _ _
        · exact List.mem_cons_of_mem _ (hm x hx)
    · obtain ⟨r, hr, hm⟩ := ih ⟨acc.pos.norm, false, acc.kept, acc.queue ++ ch, amb1⟩
      exact ⟨r, hr, fun x hx => List.mem_cons_of_mem _ (hm x hx)⟩

theorem pathFold_queue (env : Env) (l : List Asteroid) (acc : PathAcc) :
    ∀ x ∈ (l.foldl (projectilePathStep env) acc).queue,
      x ∈ acc.queue ∨ ∃ a ∈ l, x.pos = a.pos := by
  induction l generalizing acc with
  | nil => exact fun x hx => Or.inl hx
  | cons a rest ih =>
    rw [List.foldl_cons]
    intro x hx
    rcases projectilePathStep_cases env acc a with h | ⟨ch, amb1, hch, h⟩ <;> rw [h] at hx
    · rcases ih _ x hx with hm | ⟨b, hb, he⟩
      · exact Or.inl hm
      · exact Or.inr ⟨b, List.mem_cons_of_mem _ hb, he⟩
    · rcases ih _ x hx with hm | ⟨b, hb, he⟩
      · rcases List.mem_append.mp hm with hm1 | hm1
        · exact Or.inl hm1
        · exact Or.inr ⟨a, List.mem_cons_self _ _, hch x hm1⟩
      · exact Or.inr ⟨b, List.mem_cons_of_mem _ hb, he⟩

theorem pathFold_alive_false (env : Env) (l : List Asteroid) (acc : PathAcc)
    (h0 : acc.alive = false) : (l.foldl (projectilePathStep env) acc).alive = false := by
  induction l generalizing acc with
  | nil => exact h0
  | cons a rest ih =>
    rw [List.foldl_cons]
    rcases projectilePathStep_cases env acc a with h | ⟨ch, amb1, _, h⟩ <;> rw [h]
    · exact ih _ h0
    · exact ih _ rfl

theorem pathFold_no_hit (env : Env) (l : List Asteroid) (acc : PathAcc)
    (h : ∀ b ∈ l, ¬ b.isColliding acc.pos) :
    l.foldl (projectilePathStep env) acc = { acc with kept := acc.kept ++ l } := by
  induction l generalizing acc with
  | nil => simp
  | cons a rest ih =>
    rw [List.foldl_cons]
    have hstep : projectilePathStep env acc a = { acc with kept := acc.kept ++ [a] } := by
      rw [projectilePathStep, if_neg (h a (List.mem_cons_self _ _))]
    rw [hstep, ih { acc with kept := acc.kept ++ [a] }
      (fun b hb => h b (List.mem_cons_of_mem _ hb))]
    simp

theorem updateProjectile_parts (env : Env) (dt : ℝ) (asts q : List Asteroid) (k : ℕ)
    (p : Projectile) :
    (∀ x, (updateProjectile env dt asts q k p).1 = some x → x.pos.inBounds GAME_SIZE) ∧
    (∀ x ∈ (updateProjectile env dt asts q k p).2.1, x ∈ asts) ∧
    (∀ x ∈ (updateProjectile env dt asts q k p).2.2.1, x ∈ q ∨ ∃ a ∈ asts, x.pos = a.pos) := by
  have hkept : ∀ x ∈ (projectilePath env asts p q k).kept, x ∈ asts := by
    intro x hx
    obtain ⟨r, hr, hm⟩ := pathFold_kept env asts ⟨p.pos, true, [], q, k⟩
    rw [projectilePath] at hx
    rw [hr] at hx
    simpa using hm x (by simpa using hx)
  have hqueue : ∀ x ∈ (projectilePath env asts p q k).queue,
      x ∈ q ∨ ∃ a ∈ asts, x.pos = a.pos := by
    intro x hx
    exact pathFold_queue env asts ⟨p.pos, true, [], q, k⟩ x hx
  rw [updateProjectile]
  split
  · refine ⟨?_, hkept, hqueue⟩
    intro x hx
    obtain rfl := Option.some_inj.mp hx
    exact mod_GS _
  · refine ⟨?_, hkept, hqueue⟩
    intro x hx
    exact absurd hx (by simp)

theorem updateProjectiles_facts (env : Env) (dt : ℝ) (ps : List Projectile) :
    ∀ (asts q : List Asteroid) (k : ℕ),
    (∀ x ∈ (updateProjectiles env dt ps asts q k).1, x.pos.inBounds GAME_SIZE) ∧
    (updateProjectiles env dt ps asts q k).1.length ≤ ps.length ∧
    (∀ x ∈ (updateProjectiles env dt ps asts q k).2.1, x ∈ asts) ∧
    (∀ x ∈ (updateProjectiles env dt ps asts q k).2.2.1, x ∈ q ∨ ∃ a ∈ asts, x.pos = a.pos) := by
  induction ps with
  | nil =>
    intro asts q k
    exact ⟨by simp [updateProjectiles], by simp [updateProjectiles],
      fun x hx => by simpa [updateProjectiles] using hx,
      fun x hx => Or.inl (by simpa [updateProjectiles] using hx)⟩
  | cons p rest ih =>
    intro asts q k
    obtain ⟨hb1, hk1, hq1⟩ := updateProjectile_parts env dt asts q k p
    obtain ⟨ihb, ihl, ihk, ihq⟩ := ih (updateProjectile env dt asts q k p).2.1
      (updateProjectile env dt asts q k p).2.2.1 (updateProjectile env dt asts q k p).2.2.2
    rw [updateProjectiles]
    refine ⟨?_, ?_, ?_, ?_⟩
    · intro x hx
      rcases List.mem_append.mp hx with hx1 | hx1
      · rcases ho : (updateProjectile env dt asts q k p).1 with _ | y
        · rw [ho] at hx1
          simp at hx1
        · rw [ho] at hx1
          simp only [Option.toList_some, List.mem_singleton] at hx1
          exact hx1 ▸ hb1 y ho
      · exact ihb x hx1
    · have hlen : (updateProjectile env dt asts q k p).1.toList.length ≤ 1 := by
        rcases (updateProjectile env dt asts q k p).1 with _ | y <;> simp
      calc ((updateProjectile env dt asts q k p).1.toList ++
            (updateProjectiles env dt rest _ _ _).1).length
          = (updateProjectile env dt asts q k p).1.toList.length +
            (updateProjectiles env dt rest _ _ _).1.length := by rw [List.length_append]
      _ ≤ 1 + rest.length := Nat.add_le_add hlen ihl
      _ = rest.length + 1 := Nat.add_comm _ _
    · intro x hx
      exact hk1 x (ihk x hx)
    · intro x hx
      rcases ihq x hx with hm | ⟨a, ha, he⟩
      · exact hq1 x hm
      · exact Or.inr ⟨a, hk1 a ha, he⟩

@[simp] theorem stageParticles_ship (dt : ℝ) (s : State) :
    (State.stageParticles dt s).ship = s.ship := rfl

@[simp] theorem stageParticles_queue (dt : ℝ) (s : State) :
    (State.stageParticles dt s).queue = s.queue := rfl

@[simp] theorem stageParticles_projectiles (dt : ℝ) (s : State) :
    (State.stageParticles dt s).projectiles = s.projectiles := rfl

@[simp] theorem stageParticles_lastShotAt (dt : ℝ) (s : State) :
    (State.stageParticles dt s).lastShotAt = s.lastShotAt := rfl

@[simp] theorem stageParticles_asteroids (dt : ℝ) (s : State) :
    (State.stageParticles dt s).asteroids = s.asteroids := rfl

@[simp] theorem stageParticles_particles (dt : ℝ) (s : State) :
    (State.stageParticles dt s).particles = updateParticles dt s.particles := rfl

@[simp] theorem stageAsteroids_projectiles (env : Env) (t dt : ℝ) (s : State) :
    (State.stageAsteroids env t dt s).projectiles = s.projectiles := rfl

@[simp] theorem stageAsteroids_queue (env : Env) (t dt : ℝ) (s : State) :
    (State.stageAsteroids env t dt s).queue = s.queue := rfl

@[simp] theorem stageAsteroids_lastShotAt (env : Env) (t dt : ℝ) (s : State) :
    (State.stageAsteroids env t dt s).lastShotAt = s.lastShotAt := rfl

@[simp] theorem stageAsteroids_ambPos (env : Env) (t dt : ℝ) (s : State) :
    (State.stageAsteroids env t dt s).ambPos = s.ambPos := rfl

@[simp] theorem stageProjectiles_ship (env : Env) (dt : ℝ) (s : State) :
    (State.stageProjectiles env dt s).ship = s.ship := rfl

@[simp] theorem stageProjectiles_particles (env : Env) (dt : ℝ) (s : State) :
    (State.stageProjectiles env dt s).particles = s.particles := rfl

@[simp] theorem stageProjectiles_lastShotAt (env : Env) (dt : ℝ) (s : State) :
    (State.stageProjectiles env dt s).lastShotAt = s.lastShotAt := rfl

@[simp] theorem mergeQueue_ship (s : State) : s.mergeQueue.ship = s.ship := rfl

@[simp] theorem mergeQueue_particles (s : State) : s.mergeQueue.particles = s.particles := rfl

@[simp] theorem mergeQueue_projectiles (s : State) :
    s.mergeQueue.projectiles = s.projectiles := rfl

@[simp] theorem mergeQueue_lastShotAt (s : State) : s.mergeQueue.lastShotAt = s.lastShotAt := rfl

theorem stageShip_dead_stay (env : Env) (t dt : ℝ) (s : State) (hd : s.ship.dead)
    (hnr : ¬ 3.0 * 1000 < t - s.ship.diedAt) :
    State.stageShip env t dt s =
      { s with
        timestamp := t
        deltaTime := dt
        particles := s.particles.map (fun p => p.withTtl (max 0 (p.ttl - dt))) } := by
  rw [State.stageShip, State.updateShip]
  rw [if_pos (show ({ s with timestamp := t, deltaTime := dt } : State).ship.dead from hd)]
  rw [if_neg (show ¬ 3.0 * 1000 < t - ({ s with timestamp := t, deltaTime := dt } : State).ship.diedAt from hnr)]

theorem stageShip_dead_reset (env : Env) (t dt : ℝ) (s : State) (hd : s.ship.dead)
    (hr : 3.0 * 1000 < t - s.ship.diedAt) :
    State.stageShip env t dt s =
      State.reset env
        { s with
          timestamp := t
          deltaTime := dt
          particles := s.particles.map (fun p => p.withTtl (max 0 (p.ttl - dt))) } := by
  rw [State.stageShip, State.updateShip]
  rw [if_pos (show ({ s with timestamp := t, deltaTime := dt } : State).ship.dead from hd)]
  rw [if_pos (show 3.0 * 1000 < t - ({ s with timestamp := t, deltaTime := dt } : State).ship.diedAt from hr)]

theorem reset_ship (env : Env) (s : State) : (State.reset env s).ship = s.ship.reset := rfl

theorem reset_projectiles (env : Env) (s : State) : (State.reset env s).projectiles = [] := rfl

theorem reset_particles (env : Env) (s : State) : (State.reset env s).particles = [] := rfl

theorem reset_queue (env : Env) (s : State) : (State.reset env s).queue = s.queue := rfl

theorem reset_lastShotAt (env : Env) (s : State) : (State.reset env s).lastShotAt = s.lastShotAt := rfl

theorem stageShip_alive_facts (env : Env) (t dt : ℝ) (s : State) (ha : ¬ s.ship.dead) :
    (State.stageShip env t dt s).ship.pos.inBounds GAME_SIZE ∧
    (State.stageShip env t dt s).particles = s.particles ∧
    (State.stageShip env t dt s).queue = s.queue ∧
    (State.stageShip env t dt s).asteroids = s.asteroids := by
  rw [State.stageShip, State.updateShip]
  rw [if_neg (show ¬ ({ s with timestamp := t, deltaTime := dt } : State).ship.dead from ha)]
  refine ⟨?_, ?_, ?_, ?_⟩ <;>
  · dsimp only
    simp only [State.shoot]
    repeat' split
    all_goals first | exact mod_GS _ | rfl

theorem stageShip_alive_projectiles (env : Env) (t dt : ℝ) (s : State) (ha : ¬ s.ship.dead) :
    ((State.stageShip env t dt s).projectiles = s.projectiles ∧
      (State.stageShip env t dt s).lastShotAt = s.lastShotAt) ∨
    (∃ pr, (State.stageShip env t dt s).projectiles = s.projectiles ++ [pr] ∧
      (State.stageShip env t dt s).lastShotAt = t ∧
      SHOOTING_RATE ≤ t - s.lastShotAt ∧ s.projectiles.length < MAX_PROJECTILES) := by
  rw [State.stageShip, State.updateShip]
  rw [if_neg (show ¬ ({ s with timestamp := t, deltaTime := dt } : State).ship.dead from ha)]
  dsimp only
  split
  case isTrue hcond =>
    rw [State.shoot]
    split
    case isTrue hcap => exact Or.inl ⟨rfl, rfl⟩
    case isFalse hcap =>
      refine Or.inr ⟨_, rfl, rfl, hcond.2, Nat.lt_of_not_le hcap⟩
  case isFalse hcond => exact Or.inl ⟨rfl, rfl⟩

theorem stageShip_dead_projectiles (env : Env) (t dt : ℝ) (s : State) (hd : s.ship.dead) :
    ((State.stageShip env t dt s).projectiles = s.projectiles ∧
      (State.stageShip env t dt s).lastShotAt = s.lastShotAt) ∨
    ((State.stageShip env t dt s).projectiles = [] ∧
      (State.stageShip env t dt s).lastShotAt = s.lastShotAt) := by
  by_cases hr : 3.0 * 1000 < t - s.ship.diedAt
  · right
    rw [stageShip_dead_reset env t dt s hd hr]
    exact ⟨rfl, rfl⟩
  · left
    rw [stageShip_dead_stay env t dt s hd hr]
    exact ⟨rfl, rfl⟩

theorem fired_facts (env : Env) (t dt : ℝ) (s : State)
    (h : (State.stageShip env t dt s).projectiles.length = s.projectiles.length + 1) :
    (State.stageShip env t dt s).lastShotAt = t ∧ SHOOTING_RATE ≤ t - s.lastShotAt := by
  by_cases hd : s.ship.dead
  · rcases stageShip_dead_projectiles env t dt s hd with ⟨hp, _⟩ | ⟨hp, _⟩
    · rw [hp] at h
      exact absurd h (by omega)
    · rw [hp] at h
      simp at h
  · rcases stageShip_alive_projectiles env t dt s hd with ⟨hp, _⟩ | ⟨pr, hp, hl, hrate, _⟩
    · rw [hp] at h
      exact absurd h (by omega)
    · exact ⟨hl, hrate⟩

theorem not_fired (env : Env) (t dt : ℝ) (s : State) (h : t - s.lastShotAt < SHOOTING_RATE) :
    (State.stageShip env t dt s).projectiles.length ≠ s.projectiles.length + 1 := by
  intro hf
  obtain ⟨_, hrate⟩ := fired_facts env t dt s hf
  linarith

theorem stageShip_cap (env : Env) (t dt : ℝ) (s : State)
    (hcap : s.projectiles.length ≤ MAX_PROJECTILES) :
    (State.stageShip env t dt s).projectiles.length ≤ MAX_PROJECTILES := by
  by_cases hd : s.ship.dead
  · rcases stageShip_dead_projectiles env t dt s hd with ⟨hp, _⟩ | ⟨hp, _⟩ <;> rw [hp]
    · exact hcap
    · simp
  · rcases stageShip_alive_projectiles env t dt s hd with ⟨hp, _⟩ | ⟨pr, hp, _, _, hlt⟩ <;> rw [hp]
    · exact hcap
    · rw [List.length_append]
      simpa using hlt

theorem update_lastShotAt (env : Env) (s : State) (t dt : ℝ) :
    (State.update env s t dt).lastShotAt = (State.stageShip env t dt s).lastShotAt := by
  rw [State.update]
  simp

theorem update_ship_eq (env : Env) (s : State) (t dt : ℝ) :
    (State.update env s t dt).ship =
      (State.stageAsteroids env t dt
        (State.stageParticles dt (State.stageShip env t dt s))).ship := by
  rw [State.update]
  simp

theorem stageAsteroids_ship (env : Env) (t dt : ℝ) (s : State) :
    (State.stageAsteroids env t dt s).ship =
      (updateAsteroids env t dt s.asteroids ⟨[], s.ship, s.particles, s.rng⟩).ship := rfl

theorem stageAsteroids_particles (env : Env) (t dt : ℝ) (s : State) :
    (State.stageAsteroids env t dt s).particles =
      (updateAsteroids env t dt s.asteroids ⟨[], s.ship, s.particles, s.rng⟩).particles := rfl

theorem stageAsteroids_asteroids (env : Env) (t dt : ℝ) (s : State) :
    (State.stageAsteroids env t dt s).asteroids =
      (updateAsteroids env t dt s.asteroids ⟨[], s.ship, s.particles, s.rng⟩).asts := rfl

theorem mod_GS_eq_self (v : Vec2) (hx0 : 0 ≤ v.x) (hx1 : v.x < 1600)
    (hy0 : 0 ≤ v.y) (hy1 : v.y < 900) : v.mod GAME_SIZE = v := by
  rw [Vec2.mod]
  ext
  · exact mod_eq_self hx0 (by rw [GAME_SIZE_x]; exact hx1)
  · exact mod_eq_self hy0 (by rw [GAME_SIZE_y]; exact hy1)

theorem update_projectiles_len (env : Env) (s : State) (t dt : ℝ) :
    (State.update env s t dt).projectiles.length ≤
      (State.stageShip env t dt s).projectiles.length := by
  rw [State.update]
  rw [mergeQueue_projectiles]
  have h := (updateProjectiles_facts env dt
    (State.stageAsteroids env t dt (State.stageParticles dt (State.stageShip env t dt s))).projectiles
    (State.stageAsteroids env t dt (State.stageParticles dt (State.stageShip env t dt s))).asteroids
    (State.stageAsteroids env t dt (State.stageParticles dt (State.stageShip env t dt s))).queue
    (State.stageAsteroids env t dt (State.stageParticles dt (State.stageShip env t dt s))).ambPos).2.1
  calc (State.stageProjectiles env dt
      (State.stageAsteroids env t dt (State.stageParticles dt (State.stageShip env t dt s)))).projectiles.length
      ≤ (State.stageAsteroids env t dt
        (State.stageParticles dt (State.stageShip env t dt s))).projectiles.length := h
  _ = (State.stageShip env t dt s).projectiles.length := by simp

theorem update_dead_core (env : Env) (s : State) (t dt : ℝ) (hd : s.ship.dead)
    (hnr : ¬ 3.0 * 1000 < t - s.ship.diedAt) :
    (State.update env s t dt).ship = s.ship ∧
    (State.update env s t dt).particles =
      updateParticles dt (s.particles.map fun p => p.withTtl (max 0 (p.ttl - dt))) ∧
    (State.update env s t dt).projectiles.length ≤ s.projectiles.length := by
  have hss := stageShip_dead_stay env t dt s hd hnr
  have hBship : (State.stageParticles dt (State.stageShip env t dt s)).ship = s.ship := by
    rw [stageParticles_ship, hss]
  have hBdead : (State.stageParticles dt (State.stageShip env t dt s)).ship.dead := by
    rw [hBship]
    exact hd
  have hacc := updateAsteroids_dead env t dt
    (State.stageParticles dt (State.stageShip env t dt s)).asteroids
    ⟨[], (State.stageParticles dt (State.stageShip env t dt s)).ship,
      (State.stageParticles dt (State.stageShip env t dt s)).particles,
      (State.stageParticles dt (State.stageShip env t dt s)).rng⟩ hBdead
  refine ⟨?_, ?_, ?_⟩
  · rw [update_ship_eq, stageAsteroids_ship, hacc.1]
    exact hBship
  · rw [State.update, mergeQueue_particles, stageProjectiles_particles,
      stageAsteroids_particles, hacc.2.1]
    show (State.stageParticles dt (State.stageShip env t dt s)).particles = _
    rw [stageParticles_particles, hss]
  · calc (State.update env s t dt).projectiles.length
        ≤ (State.stageShip env t dt s).projectiles.length := update_projectiles_len env s t dt
    _ = s.projectiles.length := by rw [hss]

theorem mem_updateParticles_decayed {dt : ℝ} {ps : List Particle} :
    ∀ q ∈ updateParticles dt (ps.map fun p => p.withTtl (max 0 (p.ttl - dt))),
      ∃ p ∈ ps, q.ttl = max 0 (p.ttl - dt) - dt ∧
        q.pos = (p.pos.add p.vel).mod GAME_SIZE ∧ q.vel = p.vel := by
  intro q hq
  obtain ⟨p1, hp1, h1, h2, h3⟩ := mem_updateParticles q hq
  obtain ⟨p, hp, rfl⟩ := List.mem_map.mp hp1
  exact ⟨p, hp, by simpa using h1, by simpa using h2, by simpa using h3⟩

/-- Claim C7 (amended): while the ship is dead and the respawn timer has not
elapsed, each surviving particle is decayed twice per advance call -- once by
the clamped decay of the dead-ship step and once more by the unconditional
particle pass -- and its position is still advanced by its velocity and
wrapped; integration is not paused. -/
theorem claim_C7 (env : Env) (s : State) (t dt : ℝ) (hd : s.ship.dead)
    (hnr : ¬ 3.0 * 1000 < t - s.ship.diedAt) :
    (State.update env s t dt).particles =
      updateParticles dt (s.particles.map fun p => p.withTtl (max 0 (p.ttl - dt))) ∧
    ∀ q ∈ (State.update env s t dt).particles, ∃ p ∈ s.particles,
      q.ttl = max 0 (p.ttl - dt) - dt ∧
        q.pos = (p.pos.add p.vel).mod GAME_SIZE ∧ q.vel = p.vel := by
  obtain ⟨_, hpart, _⟩ := update_dead_core env s t dt hd hnr
  refine ⟨hpart, ?_⟩
  rw [hpart]
  exact mem_updateParticles_decayed

/-- Witness for the amended C7 at the concrete dead state s7. -/
theorem claim_C7_witness :
    s7.ship.dead ∧ ¬ 3.0 * 1000 < (100 : ℝ) - s7.ship.diedAt ∧
    ((State.update envHalf s7 100 1).particles =
        updateParticles 1 (s7.particles.map fun p => p.withTtl (max 0 (p.ttl - 1))) ∧
      ∀ q ∈ (State.update envHalf s7 100 1).particles, ∃ p ∈ s7.particles,
        q.ttl = max 0 (p.ttl - 1) - 1 ∧
          q.pos = (p.pos.add p.vel).mod GAME_SIZE ∧ q.vel = p.vel) :=
  ⟨by norm_num [Ship.dead, s7, baseState, idleShip],
    by norm_num [s7, baseState, idleShip],
    claim_C7 envHalf s7 100 1 (by norm_num [Ship.dead, s7, baseState, idleShip])
      (by norm_num [s7, baseState, idleShip])⟩

/-- Counterexample to C7 as stated: with the ship dead and no reset due, a
particle with TTL 5 and velocity (1,0) ends the call with TTL 3 (not 5 - 1 = 4)
and position (11,10) (not its old position (10,10)): the TTL decays twice and
the position still advances. -/
theorem claim_C7_counterexample :
    s7.particles.map Particle.ttl = [5] ∧
    s7.particles.map Particle.pos = [(⟨10, 10⟩ : Vec2)] ∧
    s7.ship.dead ∧
    (State.update envHalf s7 100 1).particles.map Particle.ttl = [3] ∧
    (State.update envHalf s7 100 1).particles.map Particle.pos = [(⟨11, 10⟩ : Vec2)] ∧
    ((5 : ℝ) - 1 ≠ 3) ∧ ((⟨11, 10⟩ : Vec2) ≠ (⟨10, 10⟩ : Vec2)) := by
  have hd : s7.ship.dead := by norm_num [Ship.dead, s7, baseState, idleShip]
  have hnr : ¬ 3.0 * 1000 < (100 : ℝ) - s7.ship.diedAt := by
    norm_num [s7, baseState, idleShip]
  obtain ⟨_, hpart, _⟩ := update_dead_core envHalf s7 100 1 hd hnr
  have hps : s7.particles = [Particle.line ⟨10, 10⟩ ⟨1, 0⟩ 5 0 1] := rfl
  have hdecay : (s7.particles.map fun p => p.withTtl (max 0 (p.ttl - 1))) =
      [Particle.line ⟨10, 10⟩ ⟨1, 0⟩ 4 0 1] := by
    rw [hps]
    simp only [List.map_cons, List.map_nil, Particle.withTtl, Particle.ttl]
    norm_num
  have hmoved : ((⟨10, 10⟩ : Vec2).add ⟨1, 0⟩).mod GAME_SIZE = (⟨11, 10⟩ : Vec2) := by
    have ha : ((⟨10, 10⟩ : Vec2).add ⟨1, 0⟩) = (⟨11, 10⟩ : Vec2) := by
      rw [Vec2.add]
      ext <;> norm_num
    rw [ha]
    exact mod_GS_eq_self _ (by norm_num) (by norm_num) (by norm_num) (by norm_num)
  have he : updateParticle 1 (Particle.line ⟨10, 10⟩ ⟨1, 0⟩ 4 0 1) =
      some (Particle.line ⟨11, 10⟩ ⟨1, 0⟩ 3 0 1) := by
    rw [updateParticle]
    rw [if_pos (show (1 : ℝ) < (Particle.line (⟨10, 10⟩ : Vec2) ⟨1, 0⟩ 4 0 1).ttl by
      norm_num [Particle.ttl])]
    simp only [Particle.pos, Particle.vel, Particle.ttl, Particle.withPos, Particle.withTtl]
    rw [hmoved]
    norm_num
  have hup : updateParticles 1 [Particle.line ⟨10, 10⟩ ⟨1, 0⟩ 4 0 1] =
      [Particle.line ⟨11, 10⟩ ⟨1, 0⟩ 3 0 1] := by
    rw [updateParticles]
    simp [List.filterMap_cons, he]
  rw [hdecay, hup] at hpart
  refine ⟨by rw [hps]; simp [Particle.ttl], by rw [hps]; simp [Particle.pos], hd,
    by rw [hpart]; simp [Particle.ttl], by rw [hpart]; simp [Particle.pos],
    by norm_num, ?_⟩
  intro heq
  have hx := congrArg Vec2.x heq
  norm_num at hx

/-- Claim C8 (amended): while the ship is dead and the respawn timer has not
elapsed (timestamp - diedAt <= 3000), no intent has any effect: the whole ship
record (position, velocity, rotation, flags, diedAt) is unchanged by the call,
no projectile is spawned, and particles still decay; when the timer elapses the
call performs the full reset instead, which moves the ship to the center. -/
theorem claim_C8 (env : Env) (s : State) (t dt : ℝ) (hd : s.ship.dead)
    (hnr : ¬ 3.0 * 1000 < t - s.ship.diedAt) :
    (State.update env s t dt).ship = s.ship ∧
    (State.update env s t dt).projectiles.length ≤ s.projectiles.length ∧
    ∀ q ∈ (State.update env s t dt).particles, ∃ p ∈ s.particles,
      q.ttl = max 0 (p.ttl - dt) - dt ∧ q.vel = p.vel := by
  obtain ⟨hship, hpart, hlen⟩ := update_dead_core env s t dt hd hnr
  refine ⟨hship, hlen, ?_⟩
  rw [hpart]
  intro q hq
  obtain ⟨p, hp, h1, _, h3⟩ := mem_updateParticles_decayed q hq
  exact ⟨p, hp, h1, h3⟩

/-- Witness for the amended C8 at the concrete dead state s7. -/
theorem claim_C8_witness :
    s7.ship.dead ∧ ¬ 3.0 * 1000 < (200 : ℝ) - s7.ship.diedAt ∧
    ((State.update envHalf s7 200 1).ship = s7.ship ∧
      (State.update envHalf s7 200 1).projectiles.length ≤ s7.projectiles.length ∧
      ∀ q ∈ (State.update envHalf s7 200 1).particles, ∃ p ∈ s7.particles,
        q.ttl = max 0 (p.ttl - 1) - 1 ∧ q.vel = p.vel) :=
  ⟨by norm_num [Ship.dead, s7, baseState, idleShip],
    by norm_num [s7, baseState, idleShip],
    claim_C8 envHalf s7 200 1 (by norm_num [Ship.dead, s7, baseState, idleShip])
      (by norm_num [s7, baseState, idleShip])⟩

/-- Counterexample to C8 as stated: on the advance call where the respawn timer
has elapsed, the dead ship's position is changed by the call (it is reset to
the playfield center) although every intent flag is false. -/
theorem claim_C8_counterexample :
    s8.ship.diedAt ≠ -1 ∧ s8.ship.shooting = false ∧ s8.ship.movingForward = false ∧
    s8.ship.turningLeft = false ∧ s8.ship.turningRight = false ∧
    (State.update envHalf s8 4000 1).ship.pos ≠ s8.ship.pos := by
  refine ⟨by norm_num [s8, baseState, idleShip], rfl, rfl, rfl, rfl, ?_⟩
  have hd : s8.ship.dead := by norm_num [Ship.dead, s8, baseState, idleShip]
  have hr : 3.0 * 1000 < (4000 : ℝ) - s8.ship.diedAt := by
    norm_num [s8, baseState, idleShip]
  have hss := stageShip_dead_reset envHalf 4000 1 s8 hd hr
  have hpos : (State.update envHalf s8 4000 1).ship.pos = GAME_SIZE.scale 0.5 := by
    rw [update_ship_eq, stageAsteroids_ship, updateAsteroids_ship_pos]
    show (State.stageParticles 1 (State.stageShip envHalf 4000 1 s8)).ship.pos = _
    rw [stageParticles_ship, hss]
    rfl
  rw [hpos]
  intro he
  have hx := congrArg Vec2.x he
  simp only [Vec2.scale, GAME_SIZE, FACTOR, s8, baseState, idleShip] at hx
  norm_num at hx

theorem splitChild_vel (env : Env) (a : Asteroid) (impact : Vec2) (cs : AsteroidSize)
    (k i : ℕ) :
    (Asteroid.splitChild env a impact cs k i).vel =
      (Vec2.setAngle (impact.angle + PI / 4 * (env.alea (randomSeed env k) 2 - 0.5) +
        (if i = 0 then PI / 2 else -(PI / 2))) 1).scale
        (a.vel.length * (1.5 * env.alea (randomSeed env k) 1 + 0.5)) := rfl

theorem splitChild_size (env : Env) (a : Asteroid) (impact : Vec2) (cs : AsteroidSize)
    (k i : ℕ) : (Asteroid.splitChild env a impact cs k i).size = cs := rfl

theorem jitter_bound {q : ℝ} (h0 : 0 ≤ q) (h1 : q < 1) : |PI / 4 * (q - 0.5)| ≤ PI / 8 := by
  have hpi : 0 ≤ PI / 4 := by
    have := Real.pi_pos
    rw [PI]
    linarith
  rw [abs_mul, abs_of_nonneg hpi]
  have hq : |q - 0.5| ≤ 1 / 2 := abs_le.mpr ⟨by linarith, by linarith⟩
  calc PI / 4 * |q - 0.5| ≤ PI / 4 * (1 / 2) := by
        exact mul_le_mul_of_nonneg_left hq hpi
  _ = PI / 8 := by ring

theorem mult_bounds {q : ℝ} (h0 : 0 ≤ q) (h1 : q < 1) :
    1 / 2 ≤ 1.5 * q + 0.5 ∧ 1.5 * q + 0.5 ≤ 2 := ⟨by linarith, by linarith⟩

theorem splitChild_speed (env : Env) (a : Asteroid) (impact : Vec2) (cs : AsteroidSize)
    (k i : ℕ) (hm : 0 ≤ 1.5 * env.alea (randomSeed env k) 1 + 0.5) :
    (Asteroid.splitChild env a impact cs k i).vel.length =
      a.vel.length * (1.5 * env.alea (randomSeed env k) 1 + 0.5) := by
  rw [splitChild_vel, setAngle_scale_length]
  exact abs_of_nonneg (mul_nonneg (Real.sqrt_nonneg _) hm)

/-- Claim C4, over the spec-modelled Vec2.angle (the angle method is missing
from the src/math.ts snapshot): a BIG asteroid splits into exactly two MEDIUM
children, a MEDIUM one into two SMALL children, a SMALL one into none; each
child spawns at the parent position with speed equal to the parent speed times
1.5*random()+0.5, a value in [1/2, 2], directed at the impact angle plus or
minus pi/2 plus a jitter of magnitude at most pi/8; and the scan removes the
hit parent from the surviving collection while consuming the projectile. -/
theorem claim_C4 (env : Env) (a : Asteroid) (impact : Vec2) (k : ℕ)
    (hal : ∀ s n, 0 ≤ env.alea s n ∧ env.alea s n < 1) :
    SplitSpec env a impact k := by
  refine ⟨?_, ?_, ?_⟩
  · intro hk
    simp only [Asteroid.split]
    rw [if_pos hk]
  · intro hk
    simp only [Asteroid.split]
    rw [if_neg hk]
    refine ⟨_, _, rfl, ?_, ?_, rfl, rfl, ?_, ?_⟩
    · intro hb
      constructor <;> · rw [splitChild_size]; rw [if_pos hb]
    · intro hm
      constructor <;> · rw [splitChild_size]; rw [if_neg (by rw [hm]; intro hc; cases hc)]
    · obtain ⟨hm0, hm1⟩ := mult_bounds (hal (randomSeed env k) 1).1 (hal (randomSeed env k) 1).2
      exact ⟨1.5 * env.alea (randomSeed env k) 1 + 0.5,
        PI / 4 * (env.alea (randomSeed env k) 2 - 0.5), hm0, hm1,
        jitter_bound (hal (randomSeed env k) 2).1 (hal (randomSeed env k) 2).2,
        by rw [splitChild_vel]; rfl,
        splitChild_speed env a impact _ k 0 (by linarith)⟩
    · obtain ⟨hm0, hm1⟩ := mult_bounds (hal (randomSeed env (k + 1)) 1).1
        (hal (randomSeed env (k + 1)) 1).2
      exact ⟨1.5 * env.alea (randomSeed env (k + 1)) 1 + 0.5,
        PI / 4 * (env.alea (randomSeed env (k + 1)) 2 - 0.5), hm0, hm1,
        jitter_bound (hal (randomSeed env (k + 1)) 2).1 (hal (randomSeed env (k + 1)) 2).2,
        by rw [splitChild_vel]; rfl,
        splitChild_speed env a impact _ (k + 1) 1 (by linarith)⟩
  · intro p q k2 hcol
    rw [projectilePath]
    rw [List.foldl_cons, List.foldl_nil]
    rw [projectilePathStep, if_pos hcol]
    exact ⟨rfl, rfl⟩

/-- Witness for C4 at the BIG asteroid c1Asteroid in the all-halves
environment. -/
theorem claim_C4_witness :
    (∀ s n, 0 ≤ envHalf.alea s n ∧ envHalf.alea s n < 1) ∧
    SplitSpec envHalf c1Asteroid ⟨1, 0⟩ 0 :=
  ⟨fun s n => by norm_num [envHalf],
    claim_C4 envHalf c1Asteroid ⟨1, 0⟩ 0 (fun s n => by norm_num [envHalf])⟩

theorem stageShip_idle (env : Env) (t dt : ℝ) (s : State) (ha : ¬ s.ship.dead)
    (h1 : s.ship.shooting = false) (h2 : s.ship.movingForward = false)
    (h3 : s.ship.turningLeft = false) (h4 : s.ship.turningRight = false) :
    State.stageShip env t dt s = { s with
      timestamp := t
      deltaTime := dt
      ship := { s.ship with
        vel := s.ship.vel.scale (1 - DRAG)
        pos := (s.ship.pos.add (s.ship.vel.scale (1 - DRAG))).mod GAME_SIZE } } := by
  rw [State.stageShip, State.updateShip]
  rw [if_neg (show ¬ ({ s with timestamp := t, deltaTime := dt } : State).ship.dead from ha)]
  dsimp only
  have ht : shipTurn dt s.ship = s.ship.rot := by
    rw [shipTurn, h3, h4]
    simp
  have hth : shipThrust dt s.ship = s.ship.vel := by
    rw [shipThrust, h2]
    simp
  split
  case isTrue h => exact absurd h.1 (by rw [h1]; simp)
  case isFalse h =>
    rw [ht, hth]

theorem stageParticles_of_nil (dt : ℝ) (s : State) (h : s.particles = []) :
    State.stageParticles dt s = s := by
  rw [State.stageParticles]
  rw [show updateParticles dt s.particles = s.particles by rw [h]; rfl]

theorem updateAsteroidStep_still (env : Env) (t : ℝ) (acc : AstAcc) (a : Asteroid)
    (hvel : a.vel = ⟨0, 0⟩)
    (hx0 : 0 ≤ a.pos.x) (hx1 : a.pos.x < 1600) (hy0 : 0 ≤ a.pos.y) (hy1 : a.pos.y < 900)
    (hnc : ¬ a.isColliding acc.ship.pos) :
    updateAsteroidStep env t 0 acc a = ⟨acc.asts ++ [a], acc.ship, acc.particles, acc.rng⟩ := by
  have hv1 : (a.vel.add ((Vec2.setAngle (a.rot - PI * 0.5) 1).scale
      (a.size.velocityScale * 0))).scale (1 - DRAG) = a.vel := by
    rw [hvel]
    ext <;> simp [Vec2.add, Vec2.scale, Vec2.setAngle]
  have hp1 : (a.pos.add a.vel).mod GAME_SIZE = a.pos := by
    rw [hvel]
    rw [show a.pos.add ⟨0, 0⟩ = a.pos by ext <;> simp [Vec2.add]]
    exact mod_GS_eq_self a.pos hx0 hx1 hy0 hy1
  simp only [updateAsteroidStep]
  rw [hv1, hp1]
  split
  case isTrue h => exact absurd h.2 hnc
  case isFalse h => rfl

theorem updateAsteroidStep_still_hit (env : Env) (t : ℝ) (acc : AstAcc) (a : Asteroid)
    (hvel : a.vel = ⟨0, 0⟩)
    (hx0 : 0 ≤ a.pos.x) (hx1 : a.pos.x < 1600) (hy0 : 0 ≤ a.pos.y) (hy1 : a.pos.y < 900)
    (hnd : ¬ acc.ship.dead) (hc : a.isColliding acc.ship.pos) :
    updateAsteroidStep env t 0 acc a =
      ⟨acc.asts ++ [a], { acc.ship with diedAt := t },
        acc.particles ++ (deathBurst env acc.ship.pos acc.rng).1,
        (deathBurst env acc.ship.pos acc.rng).2⟩ := by
  have hv1 : (a.vel.add ((Vec2.setAngle (a.rot - PI * 0.5) 1).scale
      (a.size.velocityScale * 0))).scale (1 - DRAG) = a.vel := by
    rw [hvel]
    ext <;> simp [Vec2.add, Vec2.scale, Vec2.setAngle]
  have hp1 : (a.pos.add a.vel).mod GAME_SIZE = a.pos := by
    rw [hvel]
    rw [show a.pos.add ⟨0, 0⟩ = a.pos by ext <;> simp [Vec2.add]]
    exact mod_GS_eq_self a.pos hx0 hx1 hy0 hy1
  simp only [updateAsteroidStep]
  rw [hv1, hp1]
  split
  case isTrue h => rfl
  case isFalse h => exact absurd ⟨hnd, hc⟩ h

theorem projectilePathStep_small_hit (env : Env) (acc : PathAcc) (a : Asteroid)
    (hk : a.size.kind = AsteroidKind.SMALL) (hc : a.isColliding acc.pos) :
    projectilePathStep env acc a = ⟨acc.pos.norm, false, acc.kept, acc.queue, acc.ambPos⟩ := by
  rw [projectilePathStep, if_pos hc]
  simp [Asteroid.split, hk]

theorem norm_34 : (⟨3, 4⟩ : Vec2).norm = ⟨0.6, 0.8⟩ := by
  have hl : (⟨3, 4⟩ : Vec2).length = 5 := by
    rw [Vec2.length]
    rw [show (⟨3, 4⟩ : Vec2).sqrLength = 5 ^ 2 by rw [Vec2.sqrLength]; norm_num]
    exact Real.sqrt_sq (by norm_num)
  rw [Vec2.norm, if_neg (by rw [hl]; norm_num), hl, Vec2.scale]
  ext <;> norm_num

theorem norm_0608 : (⟨0.6, 0.8⟩ : Vec2).norm = ⟨0.6, 0.8⟩ := by
  have hl : (⟨0.6, 0.8⟩ : Vec2).length = 1 := by
    rw [Vec2.length]
    rw [show (⟨0.6, 0.8⟩ : Vec2).sqrLength = 1 ^ 2 by rw [Vec2.sqrLength]; norm_num]
    exact Real.sqrt_sq (by norm_num)
  rw [Vec2.norm, if_neg (by rw [hl]; norm_num), hl, Vec2.scale]
  ext <;> norm_num

theorem smallA_hit : smallA.isColliding (⟨3, 4⟩ : Vec2) := by
  rw [Asteroid.isColliding, Vec2.distanceTo]
  rw [show smallA.pos.sqrDistanceTo ⟨3, 4⟩ = 5 ^ 2 by
    rw [Vec2.sqrDistanceTo]; norm_num [smallA]]
  rw [Real.sqrt_sq (by norm_num)]
  norm_num [smallA, AsteroidSize.SMALL, SCALE]

theorem smallB_hit : smallB.isColliding (⟨0.6, 0.8⟩ : Vec2) := by
  rw [Asteroid.isColliding, Vec2.distanceTo]
  rw [show smallB.pos.sqrDistanceTo ⟨0.6, 0.8⟩ = 89 by
    rw [Vec2.sqrDistanceTo]; norm_num [smallB]]
  have h2 : Real.sqrt 89 < 51.2 := by
    rw [show (51.2 : ℝ) = Real.sqrt (51.2 ^ 2) from (Real.sqrt_sq (by norm_num)).symm]
    exact Real.sqrt_lt_sqrt (by norm_num) (by norm_num)
  calc Real.sqrt 89 < 51.2 := h2
  _ ≤ smallB.size.value * smallB.size.collisionScale := by
      norm_num [smallB, AsteroidSize.SMALL, SCALE]

theorem smallA_far : ¬ smallA.isColliding (⟨800, 450⟩ : Vec2) := by
  rw [Asteroid.isColliding, Vec2.distanceTo]
  rw [show smallA.pos.sqrDistanceTo ⟨800, 450⟩ = 842500 by
    rw [Vec2.sqrDistanceTo]; norm_num [smallA]]
  intro h
  have h2 : (51.2 : ℝ) ≤ Real.sqrt 842500 := by
    rw [show (51.2 : ℝ) = Real.sqrt (51.2 ^ 2) from (Real.sqrt_sq (by norm_num)).symm]
    exact Real.sqrt_le_sqrt (by norm_num)
  have h3 : smallA.size.value * smallA.size.collisionScale = 51.2 := by
    norm_num [smallA, AsteroidSize.SMALL, SCALE]
  rw [h3] at h
  linarith

theorem smallB_far : ¬ smallB.isColliding (⟨800, 450⟩ : Vec2) := by
  rw [Asteroid.isColliding, Vec2.distanceTo]
  rw [show smallB.pos.sqrDistanceTo ⟨800, 450⟩ = 826600 by
    rw [Vec2.sqrDistanceTo]; norm_num [smallB]]
  intro h
  have h2 : (51.2 : ℝ) ≤ Real.sqrt 826600 := by
    rw [show (51.2 : ℝ) = Real.sqrt (51.2 ^ 2) from (Real.sqrt_sq (by norm_num)).symm]
    exact Real.sqrt_le_sqrt (by norm_num)
  have h3 : smallB.size.value * smallB.size.collisionScale = 51.2 := by
    norm_num [smallB, AsteroidSize.SMALL, SCALE]
  rw [h3] at h
  linarith

/-- Claim C5 (amended): during the per-projectile scan, the projectile is
removed from the live collection at its first collision, the hit asteroid is
removed and cannot be hit again, and all asteroids missed before the hit are
kept; but the scan continues over the remaining asteroids (against the
projectile's now-normalized position), so a single projectile can split or
remove more than one asteroid within the same tick. -/
theorem claim_C5 (env : Env) (l1 l2 : List Asteroid) (a : Asteroid) (p : Projectile)
    (q : List Asteroid) (k : ℕ)
    (hmiss : ∀ b ∈ l1, ¬ b.isColliding p.pos) (hhit : a.isColliding p.pos) :
    (projectilePath env (l1 ++ a :: l2) p q k).alive = false ∧
    ∃ r, (projectilePath env (l1 ++ a :: l2) p q k).kept = l1 ++ r ∧ ∀ x ∈ r, x ∈ l2 := by
  rw [projectilePath, List.foldl_append]
  rw [pathFold_no_hit env l1 ⟨p.pos, true, [], q, k⟩ hmiss]
  rw [List.foldl_cons]
  rw [show projectilePathStep env { (⟨p.pos, true, [], q, k⟩ : PathAcc) with
      kept := [] ++ l1 } a =
    ⟨p.pos.norm, false, [] ++ l1,
      q ++ (match (Asteroid.split env a p.pos.norm k).1 with
        | none => [] | some (c, d) => [c, d]), (Asteroid.split env a p.pos.norm k).2⟩ by
    rw [projectilePathStep, if_pos hhit]]
  constructor
  · exact pathFold_alive_false env l2 _ rfl
  · obtain ⟨r, hr, hm⟩ := pathFold_kept env l2
      ⟨p.pos.norm, false, [] ++ l1,
        q ++ (match (Asteroid.split env a p.pos.norm k).1 with
          | none => [] | some (c, d) => [c, d]), (Asteroid.split env a p.pos.norm k).2⟩
    refine ⟨r, ?_, hm⟩
    rw [hr]
    simp

theorem mergeQueue_asteroids (s : State) : s.mergeQueue.asteroids = s.asteroids ++ s.queue := rfl

theorem stageProjectiles_projectiles (env : Env) (dt : ℝ) (s : State) :
    (State.stageProjectiles env dt s).projectiles =
      (updateProjectiles env dt s.projectiles s.asteroids s.queue s.ambPos).1 := rfl

theorem stageProjectiles_asteroids (env : Env) (dt : ℝ) (s : State) :
    (State.stageProjectiles env dt s).asteroids =
      (updateProjectiles env dt s.projectiles s.asteroids s.queue s.ambPos).2.1 := rfl

theorem stageProjectiles_queue (env : Env) (dt : ℝ) (s : State) :
    (State.stageProjectiles env dt s).queue =
      (updateProjectiles env dt s.projectiles s.asteroids s.queue s.ambPos).2.2.1 := rfl

/-- Counterexample to C5 as stated: one projectile at (3, 4) overlaps two SMALL
asteroids; a single advance call removes both asteroids through that one
projectile (two asteroids before, none after), so one projectile does cause
more than one asteroid to be removed in one tick. -/
theorem claim_C5_counterexample :
    s5.projectiles.length = 1 ∧ s5.asteroids.length = 2 ∧
    (State.update envHalf s5 7 0).asteroids = [] ∧
    (State.update envHalf s5 7 0).projectiles = [] := by
  have ha5 : ¬ s5.ship.dead := by norm_num [Ship.dead, s5, baseState, idleShip]
  have h1 : State.stageShip envHalf 7 0 s5 = { s5 with timestamp := 7 } := by
    rw [stageShip_idle envHalf 7 0 s5 ha5 rfl rfl rfl rfl]
    have hv : s5.ship.vel.scale (1 - DRAG) = s5.ship.vel := by
      ext <;> simp [s5, baseState, idleShip, Vec2.scale]
    rw [hv]
    have hp : (s5.ship.pos.add s5.ship.vel).mod GAME_SIZE = s5.ship.pos := by
      rw [show s5.ship.pos.add s5.ship.vel = s5.ship.pos by
        ext <;> simp [s5, baseState, idleShip, Vec2.add]]
      exact mod_GS_eq_self _ (by norm_num [s5, baseState, idleShip])
        (by norm_num [s5, baseState, idleShip]) (by norm_num [s5, baseState, idleShip])
        (by norm_num [s5, baseState, idleShip])
    rw [hp]
    rfl
  have h2 : State.stageParticles 0 (State.stageShip envHalf 7 0 s5) =
      { s5 with timestamp := 7 } := by
    rw [h1]
    exact stageParticles_of_nil 0 _ rfl
  have hA : updateAsteroids envHalf 7 0 [smallA, smallB]
      ⟨[], idleShip ⟨800, 450⟩ (-1), [], ⟨"s", 0⟩⟩ =
      ⟨[smallA, smallB], idleShip ⟨800, 450⟩ (-1), [], ⟨"s", 0⟩⟩ := by
    have hs1 := updateAsteroidStep_still envHalf 7
      (⟨[], idleShip ⟨800, 450⟩ (-1), [], ⟨"s", 0⟩⟩ : AstAcc) smallA rfl
      (by norm_num [smallA]) (by norm_num [smallA]) (by norm_num [smallA])
      (by norm_num [smallA]) smallA_far
    have hs2 := updateAsteroidStep_still envHalf 7
      (⟨[smallA], idleShip ⟨800, 450⟩ (-1), [], ⟨"s", 0⟩⟩ : AstAcc) smallB rfl
      (by norm_num [smallB]) (by norm_num [smallB]) (by norm_num [smallB])
      (by norm_num [smallB]) smallB_far
    rw [updateAsteroids, hs1]
    dsimp only
    simp only [List.nil_append]
    rw [updateAsteroids, hs2]
    dsimp only
    rw [updateAsteroids]
    simp
  have h3 : State.stageAsteroids envHalf 7 0 ({ s5 with timestamp := 7 } : State) =
      { s5 with timestamp := 7 } := by
    simp only [State.stageAsteroids]
    rw [show updateAsteroids envHalf 7 0 ({ s5 with timestamp := 7 } : State).asteroids
        ⟨[], ({ s5 with timestamp := 7 } : State).ship,
          ({ s5 with timestamp := 7 } : State).particles,
          ({ s5 with timestamp := 7 } : State).rng⟩ =
        ⟨[smallA, smallB], idleShip ⟨800, 450⟩ (-1), [], ⟨"s", 0⟩⟩ from hA]
    rfl
  have hpp : projectilePath envHalf [smallA, smallB] ⟨⟨3, 4⟩, ⟨0, 0⟩, 3⟩ [] 0 =
      ⟨⟨0.6, 0.8⟩, false, [], [], 0⟩ := by
    have hq1 := projectilePathStep_small_hit envHalf
      (⟨⟨3, 4⟩, true, [], [], 0⟩ : PathAcc) smallA rfl smallA_hit
    have hq2 := projectilePathStep_small_hit envHalf
      (⟨⟨0.6, 0.8⟩, false, [], [], 0⟩ : PathAcc) smallB rfl smallB_hit
    rw [projectilePath]
    dsimp only
    rw [List.foldl_cons, hq1]
    dsimp only
    rw [norm_34]
    rw [List.foldl_cons, hq2]
    dsimp only
    rw [norm_0608]
    rw [List.foldl_nil]
  have hup : updateProjectile envHalf 0 [smallA, smallB] [] 0
      (⟨⟨3, 4⟩, ⟨0, 0⟩, 3⟩ : Projectile) = (none, [], [], 0) := by
    simp only [updateProjectile]
    rw [hpp]
    rw [if_neg (by simp)]
  have hops : updateProjectiles envHalf 0 [(⟨⟨3, 4⟩, ⟨0, 0⟩, 3⟩ : Projectile)]
      [smallA, smallB] [] 0 = ([], [], [], 0) := by
    simp [updateProjectiles, hup]
  refine ⟨rfl, rfl, ?_, ?_⟩
  · rw [State.update, h2, h3, mergeQueue_asteroids, stageProjectiles_asteroids,
      stageProjectiles_queue]
    rw [show updateProjectiles envHalf 0 ({ s5 with timestamp := 7 } : State).projectiles
        ({ s5 with timestamp := 7 } : State).asteroids ({ s5 with timestamp := 7 } : State).queue
        ({ s5 with timestamp := 7 } : State).ambPos = ([], [], [], 0) from hops]
    rfl
  · rw [State.update, h2, h3, mergeQueue_projectiles, stageProjectiles_projectiles]
    rw [show updateProjectiles envHalf 0 ({ s5 with timestamp := 7 } : State).projectiles
        ({ s5 with timestamp := 7 } : State).asteroids ({ s5 with timestamp := 7 } : State).queue
        ({ s5 with timestamp := 7 } : State).ambPos = ([], [], [], 0) from hops]

/-- Witness for the amended C5: a single SMALL asteroid hit by a projectile at
(3, 4). -/
theorem claim_C5_witness :
    (∀ b ∈ ([] : List Asteroid), ¬ b.isColliding (⟨3, 4⟩ : Vec2)) ∧
    smallA.isColliding (⟨3, 4⟩ : Vec2) ∧
    ((projectilePath envHalf ([] ++ smallA :: []) ⟨⟨3, 4⟩, ⟨0, 0⟩, 3⟩ [] 0).alive = false ∧
      ∃ r, (projectilePath envHalf ([] ++ smallA :: []) ⟨⟨3, 4⟩, ⟨0, 0⟩, 3⟩ [] 0).kept =
        [] ++ r ∧ ∀ x ∈ r, x ∈ ([] : List Asteroid)) :=
  ⟨by simp, smallA_hit,
    claim_C5 envHalf [] [] smallA ⟨⟨3, 4⟩, ⟨0, 0⟩, 3⟩ [] 0 (by simp) smallA_hit⟩

theorem stageShip_shoot (env : Env) (t dt : ℝ) (s : State) (ha : ¬ s.ship.dead)
    (hs : s.ship.shooting = true) (hr : SHOOTING_RATE ≤ t - s.lastShotAt)
    (hc : s.projectiles.length < MAX_PROJECTILES) :
    (State.stageShip env t dt s).projectiles = s.projectiles ++
      [⟨s.ship.pos.add ((Vec2.setAngle (shipTurn dt s.ship - PI * 0.5) 1).scale (SCALE / 3.0)),
        ((Vec2.setAngle (shipTurn dt s.ship - PI * 0.5) 1).scale (SCALE / 3.0)).scale
          PROJECTILE_SPEED,
        3.0⟩] ∧
    (State.stageShip env t dt s).lastShotAt = t ∧
    (State.stageShip env t dt s).ship.rot = shipTurn dt s.ship := by
  rw [State.stageShip, State.updateShip]
  rw [if_neg (show ¬ ({ s with timestamp := t, deltaTime := dt } : State).ship.dead from ha)]
  dsimp only
  split
  case isFalse h => exact absurd ⟨hs, hr⟩ h
  case isTrue h =>
    rw [State.shoot]
    split
    case isTrue hcap => exact absurd hcap (not_le.mpr hc)
    case isFalse hcap => exact ⟨rfl, rfl, rfl⟩

/-- Claim C6 (amended): when the ship is alive, the shooting intent set,
timestamp - lastShotAt at least SHOOTING_RATE and the live count below the cap,
the ship step of the advance spawns exactly one projectile at
position + unit forward direction * (SCALE/3) with TTL 3.0 and updates
lastShotAt to the timestamp (also visible after the full call); but because the
offset-scaled direction vector is reused in place, the spawned velocity is the
unit forward direction scaled by (SCALE/3) * PROJECTILE_SPEED, so its magnitude
is (SCALE/3) * PROJECTILE_SPEED = 64/15, not PROJECTILE_SPEED. -/
theorem claim_C6 (env : Env) (s : State) (t dt : ℝ) (ha : ¬ s.ship.dead)
    (hs : s.ship.shooting = true) (hr : SHOOTING_RATE ≤ t - s.lastShotAt)
    (hc : s.projectiles.length < MAX_PROJECTILES) :
    ∃ pr : Projectile,
      (State.stageShip env t dt s).projectiles = s.projectiles ++ [pr] ∧
      pr.pos = s.ship.pos.add
        ((Vec2.setAngle (shipTurn dt s.ship - PI * 0.5) 1).scale (SCALE / 3.0)) ∧
      pr.vel = ((Vec2.setAngle (shipTurn dt s.ship - PI * 0.5) 1).scale (SCALE / 3.0)).scale
        PROJECTILE_SPEED ∧
      pr.ttl = 3.0 ∧
      pr.vel.length = SCALE / 3.0 * PROJECTILE_SPEED ∧
      (State.stageShip env t dt s).lastShotAt = t ∧
      (State.update env s t dt).lastShotAt = t := by
  obtain ⟨hp, hl, _⟩ := stageShip_shoot env t dt s ha hs hr hc
  refine ⟨_, hp, rfl, rfl, rfl, ?_, hl, by rw [update_lastShotAt]; exact hl⟩
  rw [Vec2.scale_scale, setAngle_scale_length]
  rw [abs_of_nonneg (by norm_num [SCALE, PROJECTILE_SPEED])]

/-- Witness for the amended C6 at the concrete shooting state s6. -/
theorem claim_C6_witness :
    ¬ s6.ship.dead ∧ s6.ship.shooting = true ∧
    SHOOTING_RATE ≤ (1000 : ℝ) - s6.lastShotAt ∧
    s6.projectiles.length < MAX_PROJECTILES ∧
    (∃ pr : Projectile,
      (State.stageShip envHalf 1000 0 s6).projectiles = s6.projectiles ++ [pr] ∧
      pr.pos = s6.ship.pos.add
        ((Vec2.setAngle (shipTurn 0 s6.ship - PI * 0.5) 1).scale (SCALE / 3.0)) ∧
      pr.vel = ((Vec2.setAngle (shipTurn 0 s6.ship - PI * 0.5) 1).scale (SCALE / 3.0)).scale
        PROJECTILE_SPEED ∧
      pr.ttl = 3.0 ∧
      pr.vel.length = SCALE / 3.0 * PROJECTILE_SPEED ∧
      (State.stageShip envHalf 1000 0 s6).lastShotAt = 1000 ∧
      (State.update envHalf s6 1000 0).lastShotAt = 1000) :=
  ⟨by norm_num [Ship.dead, s6, baseState, shootingShip], rfl,
    by norm_num [SHOOTING_RATE, s6, baseState],
    by simp [s6, baseState, MAX_PROJECTILES],
    claim_C6 envHalf s6 1000 0 (by norm_num [Ship.dead, s6, baseState, shootingShip]) rfl
      (by norm_num [SHOOTING_RATE, s6, baseState])
      (by simp [s6, baseState, MAX_PROJECTILES])⟩

/-- Counterexample to C6 as stated: the projectile spawned by the shooting
state s6 has velocity magnitude 64/15, not PROJECTILE_SPEED = 0.2, because the
direction vector was already scaled by SCALE/3 when it is scaled again by
PROJECTILE_SPEED. -/
theorem claim_C6_counterexample :
    ∃ pr : Projectile, (State.stageShip envHalf 1000 0 s6).projectiles = [pr] ∧
      pr.vel.length = 64 / 15 ∧ pr.vel.length ≠ PROJECTILE_SPEED := by
  obtain ⟨hp, _, _⟩ := stageShip_shoot envHalf 1000 0 s6
    (by norm_num [Ship.dead, s6, baseState, shootingShip]) rfl
    (by norm_num [SHOOTING_RATE, s6, baseState])
    (by simp [s6, baseState, MAX_PROJECTILES])
  refine ⟨_, by simpa using hp, ?_, ?_⟩
  · rw [Vec2.scale_scale, setAngle_scale_length]
    rw [abs_of_nonneg (by norm_num [SCALE, PROJECTILE_SPEED])]
    norm_num [SCALE, PROJECTILE_SPEED]
  · rw [Vec2.scale_scale, setAngle_scale_length]
    rw [abs_of_nonneg (by norm_num [SCALE, PROJECTILE_SPEED])]
    norm_num [SCALE, PROJECTILE_SPEED]

/-- Claim C9: two fire intents within SHOOTING_RATE milliseconds produce at
most one projectile (if the first advance call spawned one, the next call
within the window spawns none), and from any state within the cap the
projectile count never exceeds MAX_PROJECTILES after an advance call. -/
theorem claim_C9 (env : Env) (s : State) (t1 dt1 t2 dt2 : ℝ)
    (hrate : t2 - t1 < SHOOTING_RATE) (hcap : s.projectiles.length ≤ MAX_PROJECTILES) :
    ((State.stageShip env t1 dt1 s).projectiles.length = s.projectiles.length + 1 →
      (State.stageShip env t2 dt2 (State.update env s t1 dt1)).projectiles.length ≠
        (State.update env s t1 dt1).projectiles.length + 1) ∧
    (State.update env s t1 dt1).projectiles.length ≤ MAX_PROJECTILES := by
  constructor
  · intro hf
    obtain ⟨hl, _⟩ := fired_facts env t1 dt1 s hf
    apply not_fired
    rw [update_lastShotAt, hl]
    linarith
  · calc (State.update env s t1 dt1).projectiles.length
        ≤ (State.stageShip env t1 dt1 s).projectiles.length :=
          update_projectiles_len env s t1 dt1
    _ ≤ MAX_PROJECTILES := stageShip_cap env t1 dt1 s hcap

/-- Witness for C9: a shooting ship fired at t = 1000; a second call at
t = 1100 lies inside the 200 ms window. -/
theorem claim_C9_witness :
    (1100 : ℝ) - 1000 < SHOOTING_RATE ∧ s6.projectiles.length ≤ MAX_PROJECTILES ∧
    (((State.stageShip envHalf 1000 0 s6).projectiles.length = s6.projectiles.length + 1 →
        (State.stageShip envHalf 1100 0 (State.update envHalf s6 1000 0)).projectiles.length ≠
          (State.update envHalf s6 1000 0).projectiles.length + 1) ∧
      (State.update envHalf s6 1000 0).projectiles.length ≤ MAX_PROJECTILES) :=
  ⟨by norm_num [SHOOTING_RATE], by simp [s6, baseState, shootingShip, MAX_PROJECTILES],
    claim_C9 envHalf s6 1000 0 1100 0 (by norm_num [SHOOTING_RATE])
      (by simp [s6, baseState, shootingShip, MAX_PROJECTILES])⟩

theorem stageShip_queue (env : Env) (t dt : ℝ) (s : State) :
    (State.stageShip env t dt s).queue = s.queue := by
  by_cases hd : s.ship.dead
  · by_cases hr : 3.0 * 1000 < t - s.ship.diedAt
    · rw [stageShip_dead_reset env t dt s hd hr, reset_queue]
    · rw [stageShip_dead_stay env t dt s hd hr]
  · exact (stageShip_alive_facts env t dt s hd).2.2.1

theorem stageShip_pos_inBounds (env : Env) (t dt : ℝ) (s : State)
    (hs : s.ship.pos.inBounds GAME_SIZE) :
    (State.stageShip env t dt s).ship.pos.inBounds GAME_SIZE := by
  by_cases hd : s.ship.dead
  · by_cases hr : 3.0 * 1000 < t - s.ship.diedAt
    · rw [stageShip_dead_reset env t dt s hd hr, reset_ship]
      show (GAME_SIZE.scale 0.5).inBounds GAME_SIZE
      exact center_inBounds
    · rw [stageShip_dead_stay env t dt s hd hr]
      exact hs
  · exact (stageShip_alive_facts env t dt s hd).1

/-- Claim C3 (amended): for an advance call on a state whose ship is inside the
playfield and whose deferred-split queue is empty, the resulting ship,
asteroids and projectiles all lie inside the playfield, and the particle
collection splits into a prefix of in-bounds particles and a suffix that is
empty except on the call in which the ship dies; on that call the death-burst
particles are appended unwrapped and may lie outside the playfield. -/
theorem claim_C3 (env : Env) (s : State) (t dt : ℝ)
    (hship : s.ship.pos.inBounds GAME_SIZE) (hq : s.queue = []) :
    (State.update env s t dt).ship.pos.inBounds GAME_SIZE ∧
    (∀ a ∈ (State.update env s t dt).asteroids, a.pos.inBounds GAME_SIZE) ∧
    (∀ p ∈ (State.update env s t dt).projectiles, p.pos.inBounds GAME_SIZE) ∧
    (∃ pre post, (State.update env s t dt).particles = pre ++ post ∧
      (∀ q ∈ pre, q.pos.inBounds GAME_SIZE) ∧
      (post = [] ∨ (State.update env s t dt).ship.diedAt = t)) := by
  rw [State.update]
  generalize hA : State.stageShip env t dt s = sA
  have hA1 : sA.ship.pos.inBounds GAME_SIZE := by
    rw [← hA]
    exact stageShip_pos_inBounds env t dt s hship
  have hA2 : sA.queue = [] := by
    rw [← hA, stageShip_queue, hq]
  generalize hB : State.stageParticles dt sA = sB
  have hB1 : sB.ship = sA.ship := by
    rw [← hB]
    rfl
  have hB2 : sB.queue = [] := by
    rw [← hB, stageParticles_queue, hA2]
  have hB3 : ∀ q ∈ sB.particles, q.pos.inBounds GAME_SIZE := by
    rw [← hB, stageParticles_particles]
    exact updateParticles_inBounds
  generalize hC : State.stageAsteroids env t dt sB = sC
  have hC1 : sC.ship.pos.inBounds GAME_SIZE := by
    rw [← hC, stageAsteroids_ship, updateAsteroids_ship_pos]
    show sB.ship.pos.inBounds GAME_SIZE
    rw [hB1]
    exact hA1
  have hC2 : sC.queue = [] := by
    rw [← hC, stageAsteroids_queue, hB2]
  have hC3 : ∀ a ∈ sC.asteroids, a.pos.inBounds GAME_SIZE := by
    rw [← hC, stageAsteroids_asteroids]
    intro x hx
    rcases updateAsteroids_asts env t dt sB.asteroids ⟨[], sB.ship, sB.particles, sB.rng⟩ x hx
      with hm | hm
    · simp at hm
    · exact hm
  have hC4 : ∃ pre post, sC.particles = pre ++ post ∧
      (∀ q ∈ pre, q.pos.inBounds GAME_SIZE) ∧ (post = [] ∨ sC.ship.diedAt = t) := by
    obtain ⟨ex, hex, hdis⟩ := updateAsteroids_particles env t dt sB.asteroids
      ⟨[], sB.ship, sB.particles, sB.rng⟩
    refine ⟨sB.particles, ex, ?_, hB3, ?_⟩
    · rw [← hC, stageAsteroids_particles]
      exact hex
    · rcases hdis with h | h
      · exact Or.inl h
      · right
        rw [← hC, stageAsteroids_ship]
        exact h
  generalize hD : State.stageProjectiles env dt sC = sD
  obtain ⟨hp1, _, hp3, hp4⟩ :=
    updateProjectiles_facts env dt sC.projectiles sC.asteroids sC.queue sC.ambPos
  have hD1 : sD.ship = sC.ship := by
    rw [← hD, stageProjectiles_ship]
  have hD2 : sD.particles = sC.particles := by
    rw [← hD, stageProjectiles_particles]
  have hD3 : ∀ p ∈ sD.projectiles, p.pos.inBounds GAME_SIZE := by
    rw [← hD, stageProjectiles_projectiles]
    exact hp1
  have hD4 : ∀ a ∈ sD.asteroids, a.pos.inBounds GAME_SIZE := by
    rw [← hD, stageProjectiles_asteroids]
    intro x hx
    exact hC3 x (hp3 x hx)
  have hD5 : ∀ a ∈ sD.queue, a.pos.inBounds GAME_SIZE := by
    rw [← hD, stageProjectiles_queue]
    intro x hx
    rcases hp4 x hx with hm | ⟨a, ha, he⟩
    · rw [hC2] at hm
      simp at hm
    · rw [he]
      exact hC3 a ha
  refine ⟨?_, ?_, ?_, ?_⟩
  · rw [mergeQueue_ship, hD1]
    exact hC1
  · rw [mergeQueue_asteroids]
    intro x hx
    rcases List.mem_append.mp hx with h | h
    · exact hD4 x h
    · exact hD5 x h
  · rw [mergeQueue_projectiles]
    exact hD3
  · obtain ⟨pre, post, hpp, hpre, hdis⟩ := hC4
    refine ⟨pre, post, ?_, hpre, ?_⟩
    · rw [mergeQueue_particles, hD2, hpp]
    · rcases hdis with h | h
      · exact Or.inl h
      · right
        rw [mergeQueue_ship, hD1]
        exact h

/-- Witness for the amended C3: the idle centered state sW advanced at t = 1. -/
theorem claim_C3_witness :
    sW.ship.pos.inBounds GAME_SIZE ∧ sW.queue = [] ∧
    ((State.update envHalf sW 1 0).ship.pos.inBounds GAME_SIZE ∧
      (∀ a ∈ (State.update envHalf sW 1 0).asteroids, a.pos.inBounds GAME_SIZE) ∧
      (∀ p ∈ (State.update envHalf sW 1 0).projectiles, p.pos.inBounds GAME_SIZE) ∧
      (∃ pre post, (State.update envHalf sW 1 0).particles = pre ++ post ∧
        (∀ q ∈ pre, q.pos.inBounds GAME_SIZE) ∧
        (post = [] ∨ (State.update envHalf sW 1 0).ship.diedAt = 1))) :=
  ⟨by norm_num [sW, baseState, idleShip, Vec2.inBounds, GAME_SIZE_x, GAME_SIZE_y], rfl,
    claim_C3 envHalf sW 1 0
      (by norm_num [sW, baseState, idleShip, Vec2.inBounds, GAME_SIZE_x, GAME_SIZE_y]) rfl⟩

theorem smallC_hit : smallC.isColliding (⟨1599, 450⟩ : Vec2) := by
  rw [Asteroid.isColliding, Vec2.distanceTo]
  rw [show smallC.pos.sqrDistanceTo ⟨1599, 450⟩ = 0 by
    rw [Vec2.sqrDistanceTo]; norm_num [smallC]]
  rw [Real.sqrt_zero]
  norm_num [smallC, AsteroidSize.SMALL, SCALE]

theorem deathBurst_fst (env : Env) (p : Vec2) (r : Rng) :
    (deathBurst env p r).1 = [(burstParticle env p 0 r).1,
      (burstParticle env p 1 (burstParticle env p 0 r).2).1,
      (burstParticle env p 2 (burstParticle env p 1 (burstParticle env p 0 r).2).2).1,
      (burstParticle env p 3
        (burstParticle env p 2 (burstParticle env p 1 (burstParticle env p 0 r).2).2).2).1] := rfl

theorem burstParticle_pos (env : Env) (p : Vec2) (i : ℕ) (r : Rng) :
    (burstParticle env p i r).1.pos =
      p.add ⟨env.alea r.seed (r.k + 1) * 3, env.alea r.seed (r.k + 2) * 3⟩ := rfl

/-- Counterexample to C3 as stated: advancing s3c kills the ship at the right
edge, and all four death-burst particles spawn unwrapped at (1600.5, 451.5),
outside the 1600-wide playfield. -/
theorem claim_C3_counterexample :
    (State.update envHalf s3c 7 0).particles.length = 4 ∧
    ∀ q ∈ (State.update envHalf s3c 7 0).particles, ¬ q.pos.inBounds GAME_SIZE := by
  have ha3 : ¬ s3c.ship.dead := by norm_num [Ship.dead, s3c, baseState, idleShip]
  have h1 : State.stageShip envHalf 7 0 s3c = { s3c with timestamp := 7 } := by
    rw [stageShip_idle envHalf 7 0 s3c ha3 rfl rfl rfl rfl]
    have hv : s3c.ship.vel.scale (1 - DRAG) = s3c.ship.vel := by
      ext <;> simp [s3c, baseState, idleShip, Vec2.scale]
    rw [hv]
    have hp : (s3c.ship.pos.add s3c.ship.vel).mod GAME_SIZE = s3c.ship.pos := by
      rw [show s3c.ship.pos.add s3c.ship.vel = s3c.ship.pos by
        ext <;> simp [s3c, baseState, idleShip, Vec2.add]]
      exact mod_GS_eq_self _ (by norm_num [s3c, baseState, idleShip])
        (by norm_num [s3c, baseState, idleShip]) (by norm_num [s3c, baseState, idleShip])
        (by norm_num [s3c, baseState, idleShip])
    rw [hp]
    rfl
  have h2 : State.stageParticles 0 (State.stageShip envHalf 7 0 s3c) =
      { s3c with timestamp := 7 } := by
    rw [h1]
    exact stageParticles_of_nil 0 _ rfl
  have hA : updateAsteroids envHalf 7 0 [smallC]
      ⟨[], idleShip ⟨1599, 450⟩ (-1), [], ⟨"s", 0⟩⟩ =
      ⟨[smallC], { idleShip ⟨1599, 450⟩ (-1) with diedAt := 7 },
        (deathBurst envHalf ⟨1599, 450⟩ ⟨"s", 0⟩).1,
        (deathBurst envHalf ⟨1599, 450⟩ ⟨"s", 0⟩).2⟩ := by
    have hs1 := updateAsteroidStep_still_hit envHalf 7
      (⟨[], idleShip ⟨1599, 450⟩ (-1), [], ⟨"s", 0⟩⟩ : AstAcc) smallC rfl
      (by norm_num [smallC]) (by norm_num [smallC]) (by norm_num [smallC])
      (by norm_num [smallC]) (by norm_num [Ship.dead, idleShip]) smallC_hit
    rw [updateAsteroids, hs1]
    dsimp only
    simp only [List.nil_append]
    rw [updateAsteroids]
    rfl
  have hfinal : (State.update envHalf s3c 7 0).particles =
      (deathBurst envHalf ⟨1599, 450⟩ ⟨"s", 0⟩).1 := by
    rw [State.update, h2]
    rw [mergeQueue_particles, stageProjectiles_particles, stageAsteroids_particles]
    rw [show updateAsteroids envHalf 7 0 ({ s3c with timestamp := 7 } : State).asteroids
        ⟨[], ({ s3c with timestamp := 7 } : State).ship,
          ({ s3c with timestamp := 7 } : State).particles,
          ({ s3c with timestamp := 7 } : State).rng⟩ =
        ⟨[smallC], { idleShip ⟨1599, 450⟩ (-1) with diedAt := 7 },
          (deathBurst envHalf ⟨1599, 450⟩ ⟨"s", 0⟩).1,
          (deathBurst envHalf ⟨1599, 450⟩ ⟨"s", 0⟩).2⟩ from hA]
  have hpos : ∀ (i : ℕ) (r : Rng),
      (burstParticle envHalf (⟨1599, 450⟩ : Vec2) i r).1.pos = (⟨1600.5, 451.5⟩ : Vec2) := by
    intro i r
    rw [burstParticle_pos]
    show (⟨1599, 450⟩ : Vec2).add ⟨1 / 2 * 3, 1 / 2 * 3⟩ = _
    ext <;> norm_num [Vec2.add]
  have hall : ∀ q ∈ (State.update envHalf s3c 7 0).particles,
      q.pos = (⟨1600.5, 451.5⟩ : Vec2) := by
    rw [hfinal, deathBurst_fst]
    intro q hq
    rcases List.mem_cons.mp hq with rfl | hq
    · exact hpos 0 _
    rcases List.mem_cons.mp hq with rfl | hq
    · exact hpos 1 _
    rcases List.mem_cons.mp hq with rfl | hq
    · exact hpos 2 _
    rcases List.mem_cons.mp hq with rfl | hq
    · exact hpos 3 _
    simp at hq
  refine ⟨?_, ?_⟩
  · rw [hfinal, deathBurst_fst]
    rfl
  · intro q hq
    rw [hall q hq, Vec2.inBounds]
    norm_num [GAME_SIZE_x]

end

end Asteroids
